import Mathlib

/-!
# Verification of the company intelligence provider

A shallow embedding of `src/miners/intelligence_provider.py`
(class `CompanyIntelligenceProvider`) and proofs about its behaviour.

Modelling conventions:
* Python's nested dict/list/str/number payloads become the inductive `Value`;
  dicts are association lists read left-to-right (first binding wins, matching
  insertion-ordered dicts with distinct literal keys, and cache overwrite is a
  prepend).
* Python floats become `ℚ`; `round(x, 2)` becomes `round2` (round half up;
  only monotonicity and fixing multiples of 1/100 matter for any statement
  here, and both hold for Python's float rounding as well).
* The `random` module becomes a deterministic stream of draws threaded in
  state-passing style (`RandM`): `randint lo hi` reduces a stream draw into
  `[lo, hi]`, `uniform a b` maps a stream rational clamped to `[0,1]` affinely
  onto `[a, b]`, `choice`/`sample` select by a stream draw.  Every theorem
  quantifies over the stream, so nothing depends on a particular draw.
* Wall-clock instants become a `ℚ` parameter `now`; `_format_datetime` becomes
  an abstract rendering of that parameter (no statement inspects its text).
* An exception escaping the `try:` body of `get_intelligence` is injected as
  an `Option String` argument (the text of the exception); all realistic raise
  points sit before the cache-store line, so the injection point is placed
  after the cache check and before any state change.
-/

set_option maxRecDepth 10000

namespace CryptoIntel

/-! ## JSON-like values (Python nested dicts/lists) -/

inductive Value where
  | num (q : ℚ)
  | str (s : String)
  | bool (b : Bool)
  | list (vs : List Value)
  | dict (fields : List (String × Value))

abbrev Fields := List (String × Value)

/-- Association-list lookup (Python `d[k]` / `k in d`). -/
def alookup {α : Type} (l : List (String × α)) (k : String) : Option α :=
  (l.find? (fun p => p.1 == k)).map (·.2)

/-- `k in d` followed by `d[k]`, on `Value` dicts. -/
def dget (fs : Fields) (k : String) : Option Value := alookup fs k

/-- Python `d.get(k, default)`. -/
def dgetD (fs : Fields) (k : String) (d : Value) : Value := (dget fs k).getD d

def Value.asDict : Value → Option Fields
  | .dict fs => some fs
  | _ => none

def Value.asNum : Value → Option ℚ
  | .num q => some q
  | _ => none

def Value.asStr : Value → Option String
  | .str s => some s
  | _ => none

def Value.asList : Value → Option (List Value)
  | .list vs => some vs
  | _ => none

/-- Python truthiness of a payload value. -/
def Value.truthy : Value → Bool
  | .num q => q != 0
  | .str s => s != ""
  | .bool b => b
  | .list vs => !vs.isEmpty
  | .dict fs => !fs.isEmpty

/-- `k in d and d[k]` (key present with a truthy value). -/
def keyTruthy (fs : Fields) (k : String) : Bool :=
  match dget fs k with
  | some v => v.truthy
  | none => false

/-- `d.get(k, default)` where a string is expected (all stored values at the
keys this is used on are strings). -/
def getStrD (fs : Fields) (k : String) (d : String) : String :=
  match dget fs k with
  | some (.str s) => s
  | _ => d

def getNum (fs : Fields) (k : String) : Option ℚ := (dget fs k).bind Value.asNum

def getStr (fs : Fields) (k : String) : Option String := (dget fs k).bind Value.asStr

/-- Walk a path of dict keys down a value. -/
def Value.getAt (v : Value) (path : List String) : Option Value :=
  path.foldl (fun acc k => acc.bind fun w => w.asDict.bind fun fs => dget fs k) (some v)

def getNumAt (v : Value) (path : List String) : Option ℚ := (v.getAt path).bind Value.asNum

def getStrAt (v : Value) (path : List String) : Option String := (v.getAt path).bind Value.asStr

def getListAt (v : Value) (path : List String) : Option (List Value) :=
  (v.getAt path).bind Value.asList

/-- Python `str.upper()` on the ASCII strings it is applied to (tickers).
`String.toUpper` from core is not kernel-reducible, so the map is spelled out
on the character list; on ASCII the two agree, as does Python. -/
def pyUpper (s : String) : String := String.mk (s.toList.map Char.toUpper)

/-- Python `str.lower()`, same remark as `pyUpper`. -/
def pyLower (s : String) : String := String.mk (s.toList.map Char.toLower)

/-! ## The randomness model -/

/-- The deterministic stand-in for the `random` module: a stream of natural
draws and a stream of rational draws, with a cursor. -/
structure RState where
  nats : Nat → Nat
  rats : Nat → ℚ
  idx : Nat

/-- State-passing computations over the draw stream. -/
def RandM (α : Type) : Type := RState → α × RState

instance : Monad RandM where
  pure a := fun s => (a, s)
  bind m f := fun s => let r := m s; f r.1 r.2

/-- `random.randint(lo, hi)`: some value of `[lo, hi]`, taken from the stream. -/
def randint (lo hi : Nat) : RandM Nat :=
  fun s => (lo + s.nats s.idx % (hi + 1 - lo), { s with idx := s.idx + 1 })

def clamp01 (q : ℚ) : ℚ := max 0 (min 1 q)

/-- `random.uniform(a, b)`: `a + (b-a)·u` with `u ∈ [0,1]` from the stream. -/
def uniform (a b : ℚ) : RandM ℚ :=
  fun s => (a + (b - a) * clamp01 (s.rats s.idx), { s with idx := s.idx + 1 })

/-- `random.choice(l)` (every call site passes a non-empty literal; `d` is a
dummy for the empty case). -/
def choiceD {α : Type} (l : List α) (d : α) : RandM α :=
  fun s => (l.getD (s.nats s.idx % l.length) d, { s with idx := s.idx + 1 })

/-- `random.sample(l, k)` for `k ≤ l.length`: `k` elements of `l`, modelled as
a stream-selected rotation of `l` truncated to `k`. -/
def sample {α : Type} (l : List α) (k : Nat) : RandM (List α) :=
  fun s =>
    let n := s.nats s.idx % (l.length + 1)
    ((l.drop n ++ l.take n).take k, { s with idx := s.idx + 1 })

/-- Monadic map over a list, in source order. -/
def mapRand {α β : Type} (f : α → RandM β) : List α → RandM (List β)
  | [] => pure []
  | a :: l => do
      let b ← f a
      let bs ← mapRand f l
      pure (b :: bs)

/-- Python `round(x, 2)`. -/
def round2 (q : ℚ) : ℚ := ((⌊q * 100 + 1 / 2⌋ : ℤ) : ℚ) / 100

/-! ## MD5 (RFC 1321) — `_get_cache_key` hashes `f"{ticker}:{analysis_type}"` -/

def mask32 : Nat := 4294967296

def knot (x : Nat) : Nat := 4294967295 - x % mask32

def rotl (x s : Nat) : Nat := (x * 2 ^ s + x / 2 ^ (32 - s)) % mask32

def kTable : List Nat :=
  [3614090360, 3905402710, 606105819, 3250441966,
   4118548399, 1200080426, 2821735955, 4249261313,
   1770035416, 2336552879, 4294925233, 2304563134,
   1804603682, 4254626195, 2792965006, 1236535329,
   4129170786, 3225465664, 643717713, 3921069994,
   3593408605, 38016083, 3634488961, 3889429448,
   568446438, 3275163606, 4107603335, 1163531501,
   2850285829, 4243563512, 1735328473, 2368359562,
   4294588738, 2272392833, 1839030562, 4259657740,
   2763975236, 1272893353, 4139469664, 3200236656,
   681279174, 3936430074, 3572445317, 76029189,
   3654602809, 3873151461, 530742520, 3299628645,
   4096336452, 1126891415, 2878612391, 4237533241,
   1700485571, 2399980690, 4293915773, 2240044497,
   1873313359, 4264355552, 2734768916, 1309151649,
   4149444226, 3174756917, 718787259, 3951481745]

def sTable : List Nat :=
  [7, 12, 17, 22, 7, 12, 17, 22, 7, 12, 17, 22, 7, 12, 17, 22,
   5, 9, 14, 20, 5, 9, 14, 20, 5, 9, 14, 20, 5, 9, 14, 20,
   4, 11, 16, 23, 4, 11, 16, 23, 4, 11, 16, 23, 4, 11, 16, 23,
   6, 10, 15, 21, 6, 10, 15, 21, 6, 10, 15, 21, 6, 10, 15, 21]

def md5pad (msg : List Nat) : List Nat :=
  let L := msg.length
  let zeros := (120 - (L + 1) % 64) % 64
  let bitLen := (8 * L) % (2 ^ 64)
  msg ++ [128] ++ List.replicate zeros 0 ++
    (List.range 8).map (fun i => bitLen / 256 ^ i % 256)

def leWords : List Nat → List Nat
  | b0 :: b1 :: b2 :: b3 :: rest =>
      (b0 + 256 * b1 + 65536 * b2 + 16777216 * b3) :: leWords rest
  | _ => []

def md5step (m : List Nat) (st : Nat × Nat × Nat × Nat) (i : Nat) :
    Nat × Nat × Nat × Nat :=
  let (a, b, c, d) := st
  let f :=
    if i < 16 then Nat.lor (Nat.land b c) (Nat.land (knot b) d)
    else if i < 32 then Nat.lor (Nat.land d b) (Nat.land (knot d) c)
    else if i < 48 then Nat.xor (Nat.xor b c) d
    else Nat.xor c (Nat.lor b (knot d))
  let g :=
    if i < 16 then i
    else if i < 32 then (5 * i + 1) % 16
    else if i < 48 then (3 * i + 5) % 16
    else (7 * i) % 16
  let f := (f + a + kTable.getD i 0 + m.getD g 0) % mask32
  (d, (b + rotl f (sTable.getD i 0)) % mask32, b, c)

def md5blocks : List Nat → Nat × Nat × Nat × Nat → Nat × Nat × Nat × Nat
  | w0 :: w1 :: w2 :: w3 :: w4 :: w5 :: w6 :: w7 ::
    w8 :: w9 :: w10 :: w11 :: w12 :: w13 :: w14 :: w15 :: rest, (a0, b0, c0, d0) =>
      let m := [w0, w1, w2, w3, w4, w5, w6, w7, w8, w9, w10, w11, w12, w13, w14, w15]
      let (a, b, c, d) := (List.range 64).foldl (md5step m) (a0, b0, c0, d0)
      md5blocks rest
        ((a0 + a) % mask32, (b0 + b) % mask32, (c0 + c) % mask32, (d0 + d) % mask32)
  | _, st => st

def hexDigit (n : Nat) : Char :=
  "0123456789abcdef".toList.getD n '0'

def wordHexLE (w : Nat) : List Char :=
  (List.range 4).flatMap (fun i =>
    let byte := w / 256 ^ i % 256
    [hexDigit (byte / 16), hexDigit (byte % 16)])

/-- `hashlib.md5(s.encode()).hexdigest()` (call sites are ASCII, so UTF-8
bytes coincide with the character codes). -/
def md5Hex (s : String) : String :=
  let bytes := s.toList.map Char.toNat
  let (a, b, c, d) :=
    md5blocks (leWords (md5pad bytes)) (1732584193, 4023233417, 2562383102, 271733878)
  String.mk (wordHexLE a ++ wordHexLE b ++ wordHexLE c ++ wordHexLE d)

/-- `_get_cache_key`: md5 of `f"{ticker}:{analysis_type}"`. -/
def getCacheKey (ticker analysisTypeValue : String) : String :=
  md5Hex (ticker ++ ":" ++ analysisTypeValue)

/-! ## Data model -/

/-- The analysis-category enumeration; values other than the four named ones
route to the generic path, collapsed here into one constructor. -/
inductive AnalysisType where
  | crypto | financial | sentiment | news | generic
deriving DecidableEq

/-- Modelled from the spec: the wire value of each category member
(`neurons/protocol.py` is not under `src/`); the enumeration values are
modelled as the lowercase member names.  Only their pairwise distinctness
matters to any statement below. -/
def AnalysisType.toValue : AnalysisType → String
  | .crypto => "crypto"
  | .financial => "financial"
  | .sentiment => "sentiment"
  | .news => "news"
  | .generic => "generic"

/-- The recognized `additional_params` options; an absent field is an absent
dict key (the call sites read them with `dict.get` and a default). -/
structure AdditionalParams where
  fields : Option (List String) := none
  timeframe : Option String := none
  sources : Option (List String) := none
  maxArticles : Option Nat := none
  includeSentiment : Option Bool := none

structure IntelligenceResponse where
  success : Bool
  data : Value
  errorMessage : String

/-- The provider state: the curated table loaded from `company_data.json`
(an external file, so its contents are a parameter), the built-in fallback
table, the TTL, the cache, and a ghost counter `runs` that counts executions
of the data-gathering/formatting pipeline (the call-count instrumentation the
spec's testable property 1 refers to; it is not part of the source state). -/
structure Provider where
  companyData : List (String × Fields)
  fallbackData : List (String × Fields)
  cacheTtl : ℚ
  cache : List (String × IntelligenceResponse × ℚ)
  runs : Nat

/-- Stand-in for `_format_datetime`/`strftime`: renders the abstract `ℚ`
instant.  No statement below inspects the rendered text. -/
def formatDatetime (t : ℚ) : String := "T" ++ toString t

/-- `_is_cache_valid`: strictly less than the TTL. -/
def isCacheValid (ttl now timestamp : ℚ) : Bool := decide (now - timestamp < ttl)

/-- The hand-authored fallback row for MSTR. -/
def mstrFallbackRow (t0 : ℚ) : Fields :=
  [("companyName", .str "MicroStrategy Incorporated"),
     ("website", .str "https://www.microstrategy.com"),
     ("exchange", .str "NASDAQ"),
     ("sector", .str "Technology"),
     ("marketCap", .num 25000000000),
     ("sharePrice", .num 1500),
     ("ticker", .str "MSTR"),
     ("description", .str "MicroStrategy is a business intelligence and mobile software company."),
     ("headquarters", .str "Tysons Corner, Virginia"),
     ("country", .str "USA"),
     ("countryCode", .str "US"),
     ("last_updated", .str (formatDatetime t0))]

/-- The hand-authored fallback row for TSLA. -/
def tslaFallbackRow (t0 : ℚ) : Fields :=
  [("companyName", .str "Tesla, Inc."),
     ("website", .str "https://www.tesla.com"),
     ("exchange", .str "NASDAQ"),
     ("sector", .str "Manufacturing"),
     ("marketCap", .num 800000000000),
     ("sharePrice", .num 250),
     ("ticker", .str "TSLA"),
     ("description", .str "Tesla designs, develops, manufactures, leases, and sells electric vehicles and energy generation and storage systems."),
     ("headquarters", .str "Austin, Texas"),
     ("country", .str "USA"),
     ("countryCode", .str "US"),
     ("last_updated", .str (formatDatetime t0))]

/-- The hand-authored fallback row for COIN. -/
def coinFallbackRow (t0 : ℚ) : Fields :=
  [("companyName", .str "Coinbase Global, Inc."),
     ("website", .str "https://www.coinbase.com"),
     ("exchange", .str "NASDAQ"),
     ("sector", .str "Finance"),
     ("marketCap", .num 45000000000),
     ("sharePrice", .num 200),
     ("ticker", .str "COIN"),
     ("description", .str "Coinbase is a cryptocurrency exchange platform that allows users to buy, sell, and trade various cryptocurrencies."),
     ("headquarters", .str "San Francisco, California"),
     ("country", .str "USA"),
     ("countryCode", .str "US"),
     ("last_updated", .str (formatDatetime t0))]

/-- `_initialize_fallback_data`, with `t0` the instant the constructor ran. -/
def initialFallbackData (t0 : ℚ) : List (String × Fields) :=
  [("MSTR", mstrFallbackRow t0), ("TSLA", tslaFallbackRow t0), ("COIN", coinFallbackRow t0)]

/-- A provider as built by the constructor: curated table as loaded (or empty
when `company_data.json` is absent), the fallback table, an empty cache. -/
def mkProvider (companyData : List (String × Fields)) (ttl t0 : ℚ) : Provider :=
  { companyData := companyData
    fallbackData := initialFallbackData t0
    cacheTtl := ttl
    cache := []
    runs := 0 }

/-- The synthesized record `_get_company_data` generates for unknown
tickers. -/
def syntheticCompanyData (now : ℚ) (ticker : String) : RandM Fields := do
  let sector ← choiceD ["Technology", "Finance", "Manufacturing", "Healthcare"] ""
        let marketCap ← randint 1000000000 100000000000
        let sharePrice ← uniform 10 500
        let descSector ← choiceD ["Technology", "Finance", "Manufacturing", "Healthcare"] ""
        pure
          [("companyName", .str (ticker ++ " Corporation")),
           ("website", .str ("https://www." ++ pyLower ticker ++ ".com")),
           ("exchange", .str "NASDAQ"),
           ("sector", .str sector),
           ("marketCap", .num marketCap),
           ("sharePrice", .num (round2 sharePrice)),
           ("ticker", .str ticker),
           ("description", .str (ticker ++ " Corporation is a leading company in the "
              ++ descSector ++ " sector with strong market presence and innovative solutions.")),
           ("headquarters", .str "New York, NY"),
           ("country", .str "USA"),
           ("countryCode", .str "US"),
           ("last_updated", .str (formatDatetime now))]

/-- `_get_company_data`: curated table first, then fallback table, else a
synthesized record. -/
def getCompanyData (p : Provider) (now : ℚ) (ticker : String) : RandM Fields :=
  let tU := pyUpper ticker
  match alookup p.companyData tU with
  | some d => pure d
  | none =>
    match alookup p.fallbackData tU with
    | some d => pure d
    | none => syntheticCompanyData now ticker

/-! ## `_format_crypto_response` -/

/-- Historical holdings built from `trendPoints`.  The default argument of the
inner `.get('holdings', {...})` is evaluated eagerly in Python, so its
`randint` draw happens on every iteration. -/
def cryptoHistFromTrends (now : ℚ) (ctu : Value) : List Value → RandM (List Value)
  | [] => pure []
  | tp :: rest => do
      let tpf := tp.asDict.getD []
      let recordedAt := dgetD tpf "date" (.str (formatDatetime now))
      let totalUsd := dgetD tpf "usdValue" ctu
      let amt ← randint 100 10000
      let holdings := dgetD tpf "holdings"
        (.dict [("currency", .str "BTC"), ("amount", .num amt),
                ("usdValue", dgetD tpf "usdValue" ctu)])
      let rest' ← cryptoHistFromTrends now ctu rest
      pure (Value.dict
        [("recordedAt", recordedAt), ("totalUsdValue", totalUsd),
         ("holdings", holdings)] :: rest')

/-- The `current_holdings` / `current_total_usd` / `historical_holdings`
block at the top of `_format_crypto_response` (returned as a triple in that
order). -/
def cryptoHoldingsBlock (now : ℚ) (data : Fields) : RandM (Value × Value × List Value) :=
  if keyTruthy data "currentHoldings" then do
      let currentHoldings := dgetD data "currentHoldings" (.list [])
      let currentTotalUsd := dgetD data "currentTotalUsd" (.num 0)
      let historicalHoldings ←
        if keyTruthy data "trendPoints" then
          cryptoHistFromTrends now currentTotalUsd
            (((dget data "trendPoints").getD (.list [])).asList.getD [])
        else
          pure [Value.dict
            [("recordedAt", .str (formatDatetime now)),
             ("totalUsdValue", currentTotalUsd),
             ("holdings", currentHoldings)]]
      pure (currentHoldings, currentTotalUsd, historicalHoldings)
    else do
      let btcAmt ← randint 500 25000
      let btcUsd ← randint 15000000 1000000000
      let ethAmt ← randint 2000 100000
      let ethUsd ← randint 3000000 300000000
      let solAmt ← randint 10000 500000
      let solUsd ← randint 500000 50000000
      let currentHoldings := Value.list
        [.dict [("currency", .str "BTC"), ("amount", .num btcAmt),
                ("usdValue", .num btcUsd), ("lastUpdated", .str (formatDatetime now))],
         .dict [("currency", .str "ETH"), ("amount", .num ethAmt),
                ("usdValue", .num ethUsd), ("lastUpdated", .str (formatDatetime now))],
         .dict [("currency", .str "SOL"), ("amount", .num solAmt),
                ("usdValue", .num solUsd), ("lastUpdated", .str (formatDatetime now))]]
      let currentTotalUsd := Value.num ((btcUsd : ℚ) + ethUsd + solUsd)
      let hBtcAmt ← randint 500 25000
      let hBtcUsd ← randint 15000000 1000000000
      let hEthAmt ← randint 2000 100000
      let hEthUsd ← randint 3000000 300000000
      let historicalHoldings := [Value.dict
        [("recordedAt", .str (formatDatetime now)),
         ("totalUsdValue", currentTotalUsd),
         ("holdings", .list
           [.dict [("currency", .str "BTC"), ("amount", .num hBtcAmt),
                   ("usdValue", .num hBtcUsd)],
            .dict [("currency", .str "ETH"), ("amount", .num hEthAmt),
                   ("usdValue", .num hEthUsd)]])]]
      pure (currentHoldings, currentTotalUsd, historicalHoldings)

def formatCryptoResponse (now : ℚ) (data : Fields) (ticker : String)
    (_addl : AdditionalParams) : RandM Value := do
  let hb ← cryptoHoldingsBlock now data
  let currentHoldings := hb.1
  let currentTotalUsd := hb.2.1
  let historicalHoldings := hb.2.2
  let volume ← randint 1000000 100000000
  let eps ← round2 <$> uniform 0.5 20
  let bookValue ← round2 <$> uniform 5 100
  let sharesFloat ← randint 10000000 1000000000
  let sharesOutstanding ← randint 50000000 5000000000
  let rel1 ← round2 <$> uniform 0.7 1
  let sent1 ← choiceD ["positive", "neutral", "negative"] ""
  let rel2 ← round2 <$> uniform 0.7 1
  let sent2 ← choiceD ["positive", "neutral", "negative"] ""
  pure (Value.dict
    [("company", .dict
      [("ticker", .str ticker),
       ("companyName", dgetD data "companyName" (.str (ticker ++ " Corporation"))),
       ("website", dgetD data "website" (.str ("https://www." ++ pyLower ticker ++ ".com"))),
       ("exchange", dgetD data "exchange" (.str "NASDAQ")),
       ("sector", dgetD data "sector" (.str "Technology")),
       ("marketCap", dgetD data "marketCap" (.num 0)),
       ("sharePrice", dgetD data "sharePrice" (.num 0)),
       ("industry", dgetD data "sector" (.str "Software")),
       ("volume", .num volume),
       ("eps", .num eps),
       ("bookValue", .num bookValue),
       ("description", dgetD data "description" (.str (ticker
          ++ " Corporation is a leading " ++ pyLower (getStrD data "sector" "Technology")
          ++ " company with strong market presence and innovative solutions."))),
       ("headquarters", dgetD data "headquarters" (.str "New York, NY")),
       ("country", dgetD data "country" (.str "USA")),
       ("countryCode", dgetD data "countryCode" (.str "US")),
       ("last_updated", dgetD data "last_updated" (.str (formatDatetime now))),
       ("address", dgetD data "address" (.str "123 Business Street, New York, NY 10001")),
       ("currency", .str "USD"),
       ("symbol", .str ticker),
       ("sharesFloat", .num sharesFloat),
       ("sharesOutstanding", .num sharesOutstanding),
       ("cryptoHoldings", currentHoldings),
       ("totalCryptoValue", currentTotalUsd),
       ("sentiment", .str "positive"),
       ("sentimentScore", .num 0.75),
       ("newsArticles", .list
         [.dict [("title", .str (ticker ++ " Crypto Holdings Analysis")),
                 ("summary", .str (ticker ++ " demonstrates strong cryptocurrency portfolio management")),
                 ("url", .str ("https://news.example.com/" ++ pyLower ticker ++ "/crypto/1")),
                 ("source", .str "Crypto Analytics"),
                 ("published_date", .str (formatDatetime now)),
                 ("relevance_score", .num rel1),
                 ("sentiment", .str sent1)],
          .dict [("title", .str ("Crypto Market Impact on " ++ ticker)),
                 ("summary", .str ("Analysis of cryptocurrency market influence on " ++ ticker ++ " performance")),
                 ("url", .str ("https://news.example.com/" ++ pyLower ticker ++ "/crypto/2")),
                 ("source", .str "Digital Asset News"),
                 ("published_date", .str (formatDatetime now)),
                 ("relevance_score", .num rel2),
                 ("sentiment", .str sent2)]]),
       ("totalArticles", .num 2),
       ("data", .dict
         [("currentHoldings", currentHoldings),
          ("currentTotalUsd", currentTotalUsd),
          ("historicalHoldings", .list historicalHoldings)])]),
     ("confidenceScore", .num 0.95),
     ("freshnessScore", .num 0.98),
     ("completenessScore", .num 0.95)])

/-! ## `_format_financial_response` -/

def formatFinancialResponse (now : ℚ) (data : Fields) (ticker : String)
    (addl : AdditionalParams) : RandM Value := do
  let _requestedFields := addl.fields.getD []
  let volume ← randint 5000000 500000000
  let eps ← round2 <$> uniform 1.5 25
  let bookValue ← round2 <$> uniform 10 150
  let industry := dgetD data "sector" (.str "Software")
  let mcDefault ← randint 10000000000 500000000000
  let marketCap := dgetD data "marketCap" (.num mcDefault)
  let spDefault ← round2 <$> uniform 25 800
  let sharePrice := dgetD data "sharePrice" (.num spDefault)
  let sharesFloat ← randint 10000000 1000000000
  let sharesOutstanding ← randint 50000000 5000000000
  let btcAmt ← randint 100 10000
  let btcUsd ← randint 1000000 100000000
  let ethAmt ← randint 500 50000
  let ethUsd ← randint 500000 50000000
  let totalCryptoValue ← randint 5000000 150000000
  let sentiment ← choiceD ["positive", "neutral", "negative"] ""
  let sentimentScore ← round2 <$> uniform (-1) 1
  let q1 ← randint 1 4
  let rel1 ← round2 <$> uniform 0.7 1
  let sent1 ← choiceD ["positive", "neutral", "negative"] ""
  let rel2 ← round2 <$> uniform 0.7 1
  let sent2 ← choiceD ["positive", "neutral", "negative"] ""
  pure (Value.dict
    [("company", .dict
      [("ticker", .str ticker),
       ("companyName", dgetD data "companyName" (.str (ticker ++ " Corporation"))),
       ("website", dgetD data "website" (.str ("https://www." ++ pyLower ticker ++ ".com"))),
       ("exchange", dgetD data "exchange" (.str "NASDAQ")),
       ("sector", dgetD data "sector" (.str "Technology")),
       ("marketCap", marketCap),
       ("sharePrice", sharePrice),
       ("industry", industry),
       ("volume", .num volume),
       ("eps", .num eps),
       ("bookValue", .num bookValue),
       ("description", dgetD data "description" (.str (ticker
          ++ " Corporation is a leading " ++ pyLower (getStrD data "sector" "Technology")
          ++ " company with strong market presence and innovative solutions."))),
       ("headquarters", dgetD data "headquarters" (.str "New York, NY")),
       ("country", dgetD data "country" (.str "USA")),
       ("countryCode", dgetD data "countryCode" (.str "US")),
       ("last_updated", dgetD data "last_updated" (.str (formatDatetime now))),
       ("address", dgetD data "address" (.str "123 Business Street, New York, NY 10001")),
       ("currency", .str "USD"),
       ("symbol", .str ticker),
       ("sharesFloat", .num sharesFloat),
       ("sharesOutstanding", .num sharesOutstanding),
       ("cryptoHoldings", .list
         [.dict [("currency", .str "BTC"), ("amount", .num btcAmt),
                 ("usdValue", .num btcUsd), ("lastUpdated", .str (formatDatetime now))],
          .dict [("currency", .str "ETH"), ("amount", .num ethAmt),
                 ("usdValue", .num ethUsd), ("lastUpdated", .str (formatDatetime now))]]),
       ("totalCryptoValue", .num totalCryptoValue),
       ("sentiment", .str sentiment),
       ("sentimentScore", .num sentimentScore),
       ("newsArticles", .list
         [.dict [("title", .str (ticker ++ " Reports Strong Q" ++ toString q1 ++ " Performance")),
                 ("summary", .str (ticker ++ " demonstrates continued growth and market leadership")),
                 ("url", .str ("https://news.example.com/" ++ pyLower ticker ++ "/1")),
                 ("source", .str "Reuters"),
                 ("published_date", .str (formatDatetime now)),
                 ("relevance_score", .num rel1),
                 ("sentiment", .str sent1)],
          .dict [("title", .str ("Analysts Upgrade " ++ ticker ++ " Rating")),
                 ("summary", .str ("Investment firms revise outlook on " ++ ticker ++ " based on recent performance")),
                 ("url", .str ("https://news.example.com/" ++ pyLower ticker ++ "/2")),
                 ("source", .str "Bloomberg"),
                 ("published_date", .str (formatDatetime now)),
                 ("relevance_score", .num rel2),
                 ("sentiment", .str sent2)]]),
       ("totalArticles", .num 2),
       ("data", .dict
         [("marketCap", marketCap),
          ("sharePrice", sharePrice),
          ("sector", dgetD data "sector" (.str "Technology")),
          ("volume", .num volume),
          ("eps", .num eps),
          ("bookValue", .num bookValue),
          ("industry", industry)])]),
     ("confidenceScore", .num 0.95),
     ("freshnessScore", .num 0.98),
     ("completenessScore", .num 0.95)])

/-! ## `_format_sentiment_response` -/

def socialSources : List String :=
  ["Twitter Sentiment Analysis", "Reddit Community Sentiment", "StockTwits Analysis",
   "Social Media Sentiment", "Community Forum Analysis", "Discord Trading Sentiment",
   "Telegram Channel Analysis"]

def newsChannelSources : List String :=
  ["Bloomberg Terminal", "Reuters Analytics", "Yahoo Finance", "MarketWatch",
   "Financial Times", "Wall Street Journal", "CNBC Analysis", "Investing.com"]

def analystSources : List String :=
  ["Seeking Alpha", "Motley Fool", "TradingView", "Alpha Vantage", "IEX Cloud",
   "Polygon.io", "Finnhub", "Professional Analyst Reports", "Institutional Research"]

/-- Lookup in the `source_categories` dict (`source_type in source_categories`). -/
def sourceCategoryNames (t : String) : Option (List String) :=
  if t == "social" then some socialSources
  else if t == "news" then some newsChannelSources
  else if t == "analyst" then some analystSources
  else none

/-- One generated per-source sentiment entry. -/
def mkSentimentSource (now : ℚ) (name : String) : RandM Value := do
  let sent ← choiceD ["positive", "neutral", "negative"] ""
  let score ← round2 <$> uniform 0.1 1
  pure (Value.dict
    [("source", .str name), ("sentiment", .str sent),
     ("score", .num score), ("timestamp", .str (formatDatetime now))])

/-- The source-generation loop of `_format_sentiment_response`: every
recognized requested type contributes `randint(1, 2)` sampled entries,
unrecognized types contribute nothing. -/
def genSources (now : ℚ) : List String → RandM (List Value)
  | [] => pure []
  | t :: rest =>
    match sourceCategoryNames t with
    | some names => do
        let num ← randint 1 2
        let selected ← sample names (min num names.length)
        let entries ← mapRand (mkSentimentSource now) selected
        let more ← genSources now rest
        pure (entries ++ more)
    | none => genSources now rest

/-- `if not generated_sources:` — the generated list, or the single default
entry when no requested type was recognized. -/
def sourcesOrDefault (now : ℚ) (generated : List Value) : RandM (List Value) :=
  if generated.isEmpty then do
    let sent ← choiceD ["positive", "neutral", "negative"] ""
    let score ← round2 <$> uniform 0.1 1
    pure [Value.dict
      [("source", .str "Default Sentiment Analysis"),
       ("sentiment", .str sent), ("score", .num score),
       ("timestamp", .str (formatDatetime now))]]
  else pure generated

def sectorKeywordTable (ticker : String) : List (String × List String) :=
  [("technology",
    [ticker ++ " innovation leadership", ticker ++ " digital transformation",
     ticker ++ " software solutions", ticker ++ " cloud computing",
     ticker ++ " AI and machine learning", ticker ++ " cybersecurity strength",
     ticker ++ " platform scalability"]),
   ("finance",
    [ticker ++ " financial services", ticker ++ " banking solutions",
     ticker ++ " investment performance", ticker ++ " fintech innovation",
     ticker ++ " digital banking", ticker ++ " payment processing",
     ticker ++ " wealth management"]),
   ("manufacturing",
    [ticker ++ " manufacturing efficiency", ticker ++ " production capacity",
     ticker ++ " supply chain optimization", ticker ++ " quality control",
     ticker ++ " automation technology", ticker ++ " operational excellence",
     ticker ++ " sustainable manufacturing"]),
   ("healthcare",
    [ticker ++ " healthcare innovation", ticker ++ " medical technology",
     ticker ++ " pharmaceutical development", ticker ++ " patient care solutions",
     ticker ++ " clinical research", ticker ++ " healthcare digitization",
     ticker ++ " medical device advancement"])]

def generalKeywords (ticker : String) : List String :=
  [ticker ++ " strong performance", ticker ++ " market leadership",
   ticker ++ " strategic growth", ticker ++ " operational excellence",
   ticker ++ " competitive advantage", ticker ++ " revenue growth",
   ticker ++ " market expansion"]

def formatSentimentResponse (now : ℚ) (data : Fields) (ticker : String)
    (addl : AdditionalParams) : RandM Value := do
  let _timeframe := addl.timeframe.getD "7D"
  let sourcesParam := addl.sources.getD ["news"]
  let overallSentiment ← choiceD ["positive", "neutral", "negative"] ""
  let sentimentScore ← round2 <$> uniform (-1) 1
  let confidence ← round2 <$> uniform 0.7 0.95
  let generated ← genSources now sourcesParam
  let sources ← sourcesOrDefault now generated
  let sector := pyLower (getStrD data "sector" "Technology")
  let availableKeywords := (alookup (sectorKeywordTable ticker) sector).getD (generalKeywords ticker)
  let numKw ← randint 3 5
  let keywords ← sample availableKeywords (min numKw availableKeywords.length)
  let volume ← randint 1000000 100000000
  let eps ← round2 <$> uniform 0.5 20
  let bookValue ← round2 <$> uniform 5 100
  let sharesFloat ← randint 10000000 1000000000
  let sharesOutstanding ← randint 50000000 5000000000
  let btcAmt ← randint 25 2500
  let btcUsd ← randint 250000 25000000
  let totalCryptoValue ← randint 500000 50000000
  let rel1 ← round2 <$> uniform 0.7 1
  let rel2 ← round2 <$> uniform 0.7 1
  pure (Value.dict
    [("company", .dict
      [("ticker", .str ticker),
       ("companyName", dgetD data "companyName" (.str (ticker ++ " Corporation"))),
       ("website", dgetD data "website" (.str ("https://www." ++ pyLower ticker ++ ".com"))),
       ("exchange", dgetD data "exchange" (.str "NASDAQ")),
       ("sector", dgetD data "sector" (.str "Technology")),
       ("marketCap", dgetD data "marketCap" (.num 0)),
       ("sharePrice", dgetD data "sharePrice" (.num 0)),
       ("industry", dgetD data "sector" (.str "Software")),
       ("volume", .num volume),
       ("eps", .num eps),
       ("bookValue", .num bookValue),
       ("description", dgetD data "description" (.str (ticker
          ++ " Corporation is a leading " ++ pyLower (getStrD data "sector" "Technology")
          ++ " company with strong market presence and innovative solutions."))),
       ("headquarters", dgetD data "headquarters" (.str "New York, NY")),
       ("country", dgetD data "country" (.str "USA")),
       ("countryCode", dgetD data "countryCode" (.str "US")),
       ("last_updated", dgetD data "last_updated" (.str (formatDatetime now))),
       ("address", dgetD data "address" (.str "123 Business Street, New York, NY 10001")),
       ("currency", .str "USD"),
       ("symbol", .str ticker),
       ("sharesFloat", .num sharesFloat),
       ("sharesOutstanding", .num sharesOutstanding),
       ("cryptoHoldings", .list
         [.dict [("currency", .str "BTC"), ("amount", .num btcAmt),
                 ("usdValue", .num btcUsd), ("lastUpdated", .str (formatDatetime now))]]),
       ("totalCryptoValue", .num totalCryptoValue),
       ("sentiment", .str overallSentiment),
       ("sentimentScore", .num sentimentScore),
       ("newsArticles", .list
         [.dict [("title", .str ("Sentiment Analysis: " ++ ticker ++ " Shows "
                    ++ overallSentiment.capitalize ++ " Outlook")),
                 ("summary", .str ("Market sentiment analysis reveals " ++ overallSentiment
                    ++ " sentiment for " ++ ticker)),
                 ("url", .str ("https://news.example.com/" ++ pyLower ticker ++ "/sentiment/1")),
                 ("source", .str "Sentiment Analytics"),
                 ("published_date", .str (formatDatetime now)),
                 ("relevance_score", .num rel1),
                 ("sentiment", .str overallSentiment)],
          .dict [("title", .str ("Investor Sentiment Shifts for " ++ ticker)),
                 ("summary", .str ("Recent analysis shows changing sentiment patterns for " ++ ticker)),
                 ("url", .str ("https://news.example.com/" ++ pyLower ticker ++ "/sentiment/2")),
                 ("source", .str "Investor Analytics"),
                 ("published_date", .str (formatDatetime now)),
                 ("relevance_score", .num rel2),
                 ("sentiment", .str overallSentiment)]]),
       ("totalArticles", .num 2),
       ("data", .dict
         [("overallSentiment", .str overallSentiment),
          ("overall_sentiment", .str overallSentiment),
          ("sentimentScore", .num sentimentScore),
          ("sentiment_score", .num sentimentScore),
          ("confidence", .num confidence),
          ("sources", .list sources),
          ("keywords", .list (keywords.map Value.str)),
          ("timePeriod", .str "recent")])]),
     ("confidenceScore", .num 0.95),
     ("freshnessScore", .num 0.98),
     ("completenessScore", .num 0.95)])

/-! ## `_format_news_response` -/

def newsWireSources : List String :=
  ["Reuters", "Bloomberg", "CNBC", "MarketWatch", "Yahoo Finance",
   "Financial Times", "Wall Street Journal", "Barron\x27s", "Investing.com",
   "Seeking Alpha", "Motley Fool", "TheStreet", "Benzinga", "TipRanks",
   "Zacks Investment Research", "Morningstar", "S&P Global",
   "Moody\x27s Analytics", "FactSet", "Refinitiv"]

def newsItem (title summary : String) : Value :=
  .dict [("title", .str title), ("summary", .str summary)]

/-- The `sector_news` dict: built eagerly (every embedded draw happens) before
the sector is looked up, exactly as the Python dict literal is evaluated. -/
def buildSectorNews (ticker companyName : String) :
    RandM (List (String × List Value)) := do
  let t1a ← choiceD ["Strong", "Record", "Impressive"] ""
  let t1q ← randint 1 4
  let t1s ← choiceD ["cloud services", "software development", "digital transformation", "AI solutions"] ""
  let t2a ← choiceD ["Upgrade", "Maintain", "Downgrade"] ""
  let t2b ← choiceD ["Market Volatility", "Sector Growth", "Competition"] ""
  let t2s ← choiceD ["recent performance", "market position", "future prospects", "industry trends"] ""
  let t3a ← choiceD ["Expands", "Launches", "Announces"] ""
  let t3b ← choiceD ["Product Line", "Service", "Partnership", "Technology"] ""
  let t3s ← choiceD ["strategic initiatives", "market expansion", "product development", "customer solutions"] ""
  let f1a ← choiceD ["Posts", "Reports", "Announces"] ""
  let f1b ← choiceD ["Strong", "Record", "Solid"] ""
  let f1s ← choiceD ["revenue growth", "profitability improvement", "market share gains", "operational efficiency"] ""
  let f2a ← choiceD ["Upgrade", "Maintain", "Downgrade"] ""
  let f2s ← choiceD ["quarterly performance", "market conditions", "regulatory environment", "competitive landscape"] ""
  let f3a ← choiceD ["Expands", "Launches", "Partners"] ""
  let f3b ← choiceD ["Digital Banking", "Fintech", "Investment Services", "Payment Solutions"] ""
  let f3s ← choiceD ["digital transformation", "customer experience", "service offerings", "market presence"] ""
  let m1a ← choiceD ["Reports", "Announces", "Posts"] ""
  let m1b ← choiceD ["Strong", "Record", "Solid"] ""
  let m1s ← choiceD ["manufacturing efficiency", "supply chain optimization", "quality improvements", "operational excellence"] ""
  let m2a ← choiceD ["Upgrade", "Maintain", "Downgrade"] ""
  let m2s ← choiceD ["production capacity", "market demand", "cost efficiency", "innovation pipeline"] ""
  let m3a ← choiceD ["Expands", "Invests", "Launches"] ""
  let m3b ← choiceD ["Production Facilities", "Automation", "Sustainability", "R&D"] ""
  let m3s ← choiceD ["capacity expansion", "technology adoption", "sustainable practices", "innovation investment"] ""
  let h1a ← choiceD ["Reports", "Announces", "Posts"] ""
  let h1b ← choiceD ["Strong", "Record", "Positive"] ""
  let h1s ← choiceD ["patient care", "medical innovation", "clinical research", "healthcare solutions"] ""
  let h2a ← choiceD ["Upgrade", "Maintain", "Downgrade"] ""
  let h2s ← choiceD ["clinical trials", "regulatory approvals", "market adoption", "innovation pipeline"] ""
  let h3a ← choiceD ["Advances", "Launches", "Partners"] ""
  let h3b ← choiceD ["Medical Technology", "Pharmaceuticals", "Digital Health", "Patient Care"] ""
  let h3s ← choiceD ["medical innovation", "patient outcomes", "healthcare digitization", "clinical excellence"] ""
  pure
    [("technology",
      [newsItem (ticker ++ " Reports " ++ t1a ++ " Q" ++ toString t1q ++ " Earnings")
         (companyName ++ " demonstrates continued growth in " ++ t1s),
       newsItem ("Analysts " ++ t2a ++ " " ++ ticker ++ " Rating Amid " ++ t2b)
         ("Investment firms revise outlook on " ++ companyName ++ " based on " ++ t2s),
       newsItem (ticker ++ " " ++ t3a ++ " New " ++ t3b)
         (companyName ++ " continues innovation with " ++ t3s)]),
     ("finance",
      [newsItem (ticker ++ " " ++ f1a ++ " " ++ f1b ++ " Financial Results")
         (companyName ++ " shows " ++ f1s),
       newsItem ("Financial Analysts " ++ f2a ++ " " ++ ticker ++ " Outlook")
         ("Market experts adjust " ++ companyName ++ " projections based on " ++ f2s),
       newsItem (ticker ++ " " ++ f3a ++ " in " ++ f3b)
         (companyName ++ " advances " ++ f3s)]),
     ("manufacturing",
      [newsItem (ticker ++ " " ++ m1a ++ " " ++ m1b ++ " Production Results")
         (companyName ++ " demonstrates " ++ m1s),
       newsItem ("Industry Analysts " ++ m2a ++ " " ++ ticker ++ " Manufacturing Outlook")
         ("Experts revise " ++ companyName ++ " projections considering " ++ m2s),
       newsItem (ticker ++ " " ++ m3a ++ " " ++ m3b)
         (companyName ++ " strengthens position through " ++ m3s)]),
     ("healthcare",
      [newsItem (ticker ++ " " ++ h1a ++ " " ++ h1b ++ " Healthcare Results")
         (companyName ++ " shows progress in " ++ h1s),
       newsItem ("Healthcare Analysts " ++ h2a ++ " " ++ ticker ++ " Medical Outlook")
         ("Industry experts adjust " ++ companyName ++ " outlook based on " ++ h2s),
       newsItem (ticker ++ " " ++ h3a ++ " in " ++ h3b)
         (companyName ++ " continues " ++ h3s)])]

/-- The general default list passed to `sector_news.get(...)`: also built
eagerly, as Python evaluates the default argument unconditionally. -/
def buildGeneralNews (ticker companyName : String) : RandM (List Value) := do
  let g1a ← choiceD ["Strong", "Record", "Solid"] ""
  let g1s ← choiceD ["market leadership", "operational excellence", "strategic growth", "customer satisfaction"] ""
  let g2a ← choiceD ["Upgrade", "Maintain", "Downgrade"] ""
  let g2s ← choiceD ["recent performance", "market position", "future prospects", "industry trends"] ""
  let g3a ← choiceD ["Expands", "Launches", "Announces"] ""
  let g3s ← choiceD ["market expansion", "product development", "partnerships", "innovation"] ""
  pure
    [newsItem (ticker ++ " Reports " ++ g1a ++ " Performance")
       (companyName ++ " demonstrates continued success in " ++ g1s),
     newsItem ("Analysts " ++ g2a ++ " " ++ ticker ++ " Rating")
       ("Investment experts revise outlook on " ++ companyName ++ " based on " ++ g2s),
     newsItem (ticker ++ " " ++ g3a ++ " Strategic Initiative")
       (companyName ++ " continues growth through " ++ g3s)]

/-- The article-assembly loop; `i` is the running index used in the URL, and
the `sentiment` key is added only when `include_sentiment` holds. -/
def buildArticles (now : ℚ) (includeSent : Bool) (ticker : String) :
    Nat → List Value → RandM (List Value)
  | _, [] => pure []
  | i, item :: rest => do
      let itf := item.asDict.getD []
      let src ← choiceD newsWireSources ""
      let rel ← round2 <$> uniform 0.7 1
      let base : Fields :=
        [("title", dgetD itf "title" (.str "")),
         ("summary", dgetD itf "summary" (.str "")),
         ("url", .str ("https://news.example.com/" ++ pyLower ticker ++ "/" ++ toString (i + 1))),
         ("source", .str src),
         ("published_date", .str (formatDatetime now)),
         ("relevance_score", .num rel)]
      let article ←
        if includeSent then do
          let sent ← choiceD ["positive", "neutral", "negative"] ""
          pure (Value.dict (base ++ [("sentiment", .str sent)]))
        else pure (Value.dict base)
      let rest' ← buildArticles now includeSent ticker (i + 1) rest
      pure (article :: rest')

/-- `len([a for a in articles if a.get('sentiment') == s])`. -/
def countSentiment (articles : List Value) (s : String) : Nat :=
  (articles.filter (fun a => getStr (a.asDict.getD []) "sentiment" == some s)).length

def formatNewsResponse (now : ℚ) (data : Fields) (ticker : String)
    (addl : AdditionalParams) : RandM Value := do
  let maxArticles := addl.maxArticles.getD 10
  let _timeframe := addl.timeframe.getD "7D"
  let includeSentiment := addl.includeSentiment.getD true
  let sector := pyLower (getStrD data "sector" "Technology")
  let companyName := getStrD data "companyName" (ticker ++ " Corporation")
  let sectorNews ← buildSectorNews ticker companyName
  let generalNews ← buildGeneralNews ticker companyName
  let availableNews := (alookup sectorNews sector).getD generalNews
  let numArticles := min maxArticles availableNews.length
  let selected ← sample availableNews numArticles
  let articles ← buildArticles now includeSentiment ticker 0 selected
  let sentimentCounts := Value.dict
    [("positive", .num (countSentiment articles "positive")),
     ("negative", .num (countSentiment articles "negative")),
     ("neutral", .num (countSentiment articles "neutral"))]
  let volume ← randint 1000000 100000000
  let eps ← round2 <$> uniform 0.5 20
  let bookValue ← round2 <$> uniform 5 100
  let sharesFloat ← randint 10000000 1000000000
  let sharesOutstanding ← randint 50000000 5000000000
  let btcAmt ← randint 10 1000
  let btcUsd ← randint 100000 10000000
  let totalCryptoValue ← randint 200000 20000000
  let sentiment ← choiceD ["positive", "neutral", "negative"] ""
  let sentimentScore ← round2 <$> uniform (-1) 1
  let topSources ← sample newsWireSources (min 3 newsWireSources.length)
  pure (Value.dict
    [("company", .dict
      [("ticker", .str ticker),
       ("companyName", dgetD data "companyName" (.str (ticker ++ " Corporation"))),
       ("website", dgetD data "website" (.str ("https://www." ++ pyLower ticker ++ ".com"))),
       ("exchange", dgetD data "exchange" (.str "NASDAQ")),
       ("sector", dgetD data "sector" (.str "Technology")),
       ("marketCap", dgetD data "marketCap" (.num 0)),
       ("sharePrice", dgetD data "sharePrice" (.num 0)),
       ("industry", dgetD data "sector" (.str "Software")),
       ("volume", .num volume),
       ("eps", .num eps),
       ("bookValue", .num bookValue),
       ("description", dgetD data "description" (.str (ticker
          ++ " Corporation is a leading " ++ pyLower (getStrD data "sector" "Technology")
          ++ " company with strong market presence and innovative solutions."))),
       ("headquarters", dgetD data "headquarters" (.str "New York, NY")),
       ("country", dgetD data "country" (.str "USA")),
       ("countryCode", dgetD data "countryCode" (.str "US")),
       ("last_updated", dgetD data "last_updated" (.str (formatDatetime now))),
       ("address", dgetD data "address" (.str "123 Business Street, New York, NY 10001")),
       ("currency", .str "USD"),
       ("symbol", .str ticker),
       ("sharesFloat", .num sharesFloat),
       ("sharesOutstanding", .num sharesOutstanding),
       ("cryptoHoldings", .list
         [.dict [("currency", .str "BTC"), ("amount", .num btcAmt),
                 ("usdValue", .num btcUsd), ("lastUpdated", .str (formatDatetime now))]]),
       ("totalCryptoValue", .num totalCryptoValue),
       ("sentiment", .str sentiment),
       ("sentimentScore", .num sentimentScore),
       ("newsArticles", .list articles),
       ("totalArticles", .num articles.length),
       ("data", .dict
         [("articles", .list articles),
          ("summary", .dict
            [("total_articles", .num articles.length),
             ("date_range", .dict
               [("start", .str (formatDatetime (now - 604800))),
                ("end", .str (formatDatetime now))]),
             ("sentiment_breakdown", sentimentCounts),
             ("top_sources", .list (topSources.map Value.str))])])])])

/-! ## `_format_generic_response` -/

def formatGenericResponse (now : ℚ) (data : Fields) (ticker : String)
    (_addl : AdditionalParams) : RandM Value := do
  let volume ← randint 1000000 100000000
  let eps ← round2 <$> uniform 0.5 20
  let bookValue ← round2 <$> uniform 5 100
  let sharesFloat ← randint 10000000 1000000000
  let sharesOutstanding ← randint 50000000 5000000000
  let btcAmt ← randint 50 5000
  let btcUsd ← randint 500000 50000000
  let totalCryptoValue ← randint 1000000 100000000
  let sentiment ← choiceD ["positive", "neutral", "negative"] ""
  let sentimentScore ← round2 <$> uniform (-1) 1
  let rel1 ← round2 <$> uniform 0.7 1
  let sent1 ← choiceD ["positive", "neutral", "negative"] ""
  let rel2 ← round2 <$> uniform 0.7 1
  let sent2 ← choiceD ["positive", "neutral", "negative"] ""
  pure (Value.dict
    [("company", .dict
      [("ticker", .str ticker),
       ("companyName", dgetD data "companyName" (.str (ticker ++ " Corporation"))),
       ("website", dgetD data "website" (.str ("https://www." ++ pyLower ticker ++ ".com"))),
       ("exchange", dgetD data "exchange" (.str "NASDAQ")),
       ("sector", dgetD data "sector" (.str "Technology")),
       ("marketCap", dgetD data "marketCap" (.num 0)),
       ("sharePrice", dgetD data "sharePrice" (.num 0)),
       ("industry", dgetD data "sector" (.str "Software")),
       ("volume", .num volume),
       ("eps", .num eps),
       ("bookValue", .num bookValue),
       ("description", dgetD data "description" (.str (ticker
          ++ " Corporation is a leading " ++ pyLower (getStrD data "sector" "Technology")
          ++ " company with strong market presence and innovative solutions."))),
       ("headquarters", dgetD data "headquarters" (.str "New York, NY")),
       ("country", dgetD data "country" (.str "USA")),
       ("countryCode", dgetD data "countryCode" (.str "US")),
       ("last_updated", dgetD data "last_updated" (.str (formatDatetime now))),
       ("address", dgetD data "address" (.str "123 Business Street, New York, NY 10001")),
       ("currency", .str "USD"),
       ("symbol", .str ticker),
       ("sharesFloat", .num sharesFloat),
       ("sharesOutstanding", .num sharesOutstanding),
       ("cryptoHoldings", .list
         [.dict [("currency", .str "BTC"), ("amount", .num btcAmt),
                 ("usdValue", .num btcUsd), ("lastUpdated", .str (formatDatetime now))]]),
       ("totalCryptoValue", .num totalCryptoValue),
       ("sentiment", .str sentiment),
       ("sentimentScore", .num sentimentScore),
       ("newsArticles", .list
         [.dict [("title", .str (ticker ++ " Posts Strong Financial Results")),
                 ("summary", .str (ticker ++ " shows revenue growth and profitability improvement")),
                 ("url", .str ("https://news.example.com/" ++ pyLower ticker ++ "/financial/1")),
                 ("source", .str "Financial Times"),
                 ("published_date", .str (formatDatetime now)),
                 ("relevance_score", .num rel1),
                 ("sentiment", .str sent1)],
          .dict [("title", .str ("Financial Analysts Upgrade " ++ ticker ++ " Outlook")),
                 ("summary", .str ("Market experts adjust " ++ ticker ++ " projections based on quarterly performance")),
                 ("url", .str ("https://news.example.com/" ++ pyLower ticker ++ "/financial/2")),
                 ("source", .str "MarketWatch"),
                 ("published_date", .str (formatDatetime now)),
                 ("relevance_score", .num rel2),
                 ("sentiment", .str sent2)]]),
       ("totalArticles", .num 2),
       ("data", .dict [])]),
     ("confidenceScore", .num 0.95),
     ("freshnessScore", .num 0.98),
     ("completenessScore", .num 0.95)])

/-! ## `get_intelligence` -/

/-- `_format_response_for_analysis_type`. -/
def formatResponseForAnalysisType (now : ℚ) (data : Fields) (atype : AnalysisType)
    (ticker : String) (addl : AdditionalParams) : RandM Value :=
  match atype with
  | .crypto => formatCryptoResponse now data ticker addl
  | .financial => formatFinancialResponse now data ticker addl
  | .sentiment => formatSentimentResponse now data ticker addl
  | .news => formatNewsResponse now data ticker addl
  | .generic => formatGenericResponse now data ticker addl

/-- The body of `get_intelligence` after the cache check.  `exc = some e`
injects an exception (with text `e`) escaping the `try:` body: the except
handler returns a freshly formatted success response when the uppercased
ticker is in the curated or fallback table, and otherwise the minimal
failure response (`str(e) if e else ...`: exception objects are always
truthy in Python, so the message is `e`).  Neither handler branch writes to
the cache.  The ghost counter `runs` increments whenever the
data-gathering/formatting pipeline executes. -/
def getIntelligenceMiss (p : Provider) (now : ℚ) (ticker : String)
    (atype : AnalysisType) (addl : AdditionalParams) (exc : Option String)
    (cacheKey : String) : RandM (IntelligenceResponse × Provider) :=
  match exc with
  | none => do
      let companyData ← getCompanyData p now ticker
      let formatted ← formatResponseForAnalysisType now companyData atype ticker addl
      let response : IntelligenceResponse :=
        { success := true, data := formatted, errorMessage := "" }
      pure (response,
        { p with cache := (cacheKey, response, now) :: p.cache, runs := p.runs + 1 })
  | some e =>
      if (alookup p.companyData (pyUpper ticker)).isSome
          || (alookup p.fallbackData (pyUpper ticker)).isSome then do
        let companyData ← getCompanyData p now ticker
        let formatted ← formatResponseForAnalysisType now companyData atype ticker addl
        pure ({ success := true, data := formatted, errorMessage := "" },
          { p with runs := p.runs + 1 })
      else
        pure ({ success := false
                data := .dict [("company", .dict [("ticker", .str ticker)])]
                errorMessage := e }, p)

/-- `get_intelligence`: cache check, then the pipeline (or the except
handler).  The cache stores the fully assembled response with its store
instant; a hit requires the entry to still be valid. -/
def getIntelligence (p : Provider) (now : ℚ) (ticker : String)
    (atype : AnalysisType) (addl : AdditionalParams) (exc : Option String) :
    RandM (IntelligenceResponse × Provider) :=
  let cacheKey := getCacheKey ticker atype.toValue
  match alookup p.cache cacheKey with
  | some (cached, timestamp) =>
      if isCacheValid p.cacheTtl now timestamp then
        pure (cached, p)
      else
        getIntelligenceMiss p now ticker atype addl exc cacheKey
  | none => getIntelligenceMiss p now ticker atype addl exc cacheKey

/-! ## Confidence Aggregator

Modelled from the spec: the Confidence Aggregator (spec section 4.3) lives in
the source-adapter/aggregation layer (`miners/api_manager.py`), which the
provider holds as `self.api_manager` but which is not under `src/`.  The
definitions below follow the spec's words: weights are normalized per field
over the subset of results containing that field; numeric fields merge to the
weighted average; non-numeric (or type-disagreeing) fields take the value of
the highest-confidence contributor, ties broken by first-seen order; a single
valid result passes through unchanged with its confidence preserved.  The
spec does not fix the confidence of a multi-result candidate; the maximum is
used here and no statement depends on it. -/

structure SourceResult where
  data : Fields
  confidence : ℚ

def contributors (results : List SourceResult) (k : String) : List SourceResult :=
  results.filter (fun r => (dget r.data k).isSome)

def fieldKeys (results : List SourceResult) : List String :=
  (results.flatMap (fun r => r.data.map (·.1))).dedup

/-- Highest-confidence result, first-seen winning ties. -/
def pickHighestConfidence : SourceResult → List SourceResult → SourceResult
  | best, [] => best
  | best, r :: rest =>
      if best.confidence < r.confidence then pickHighestConfidence r rest
      else pickHighestConfidence best rest

def mergedField (results : List SourceResult) (k : String) : Value :=
  let cs := contributors results k
  if cs.all (fun r => (getNum r.data k).isSome) then
    let tot := (cs.map (·.confidence)).sum
    .num ((cs.map (fun r => r.confidence / tot * ((getNum r.data k).getD 0))).sum)
  else
    match cs with
    | [] => .dict []
    | c :: rest => (dget (pickHighestConfidence c rest).data k).getD (.dict [])

def mergeRecords (results : List SourceResult) : Fields :=
  (fieldKeys results).map (fun k => (k, mergedField results k))

/-- Zero valid results report `AggregationEmpty` (`none`); one passes through
unchanged; two or more merge field-wise. -/
def aggregate : List SourceResult → Option (Fields × ℚ)
  | [] => none
  | [r] => some (r.data, r.confidence)
  | r1 :: r2 :: rest =>
      some (mergeRecords (r1 :: r2 :: rest),
        ((r1 :: r2 :: rest).map (·.confidence)).foldr max 0)

/-! ## Range lemmas for the randomness model -/

theorem clamp01_mem (q : ℚ) : 0 ≤ clamp01 q ∧ clamp01 q ≤ 1 := by
  unfold clamp01
  exact ⟨le_max_left 0 _, max_le (by norm_num) (min_le_left 1 q)⟩

theorem uniform_mem {a b : ℚ} (hab : a ≤ b) (s : RState) :
    a ≤ (uniform a b s).1 ∧ (uniform a b s).1 ≤ b := by
  unfold uniform
  obtain ⟨h0, h1⟩ := clamp01_mem (s.rats s.idx)
  constructor
  · have : 0 ≤ (b - a) * clamp01 (s.rats s.idx) :=
      mul_nonneg (by linarith) h0
    simpa using by linarith
  · have : (b - a) * clamp01 (s.rats s.idx) ≤ b - a :=
      mul_le_of_le_one_right (by linarith) h1
    simpa using by linarith

theorem randint_mem (lo hi : Nat) (h : lo ≤ hi) (s : RState) :
    lo ≤ (randint lo hi s).1 ∧ (randint lo hi s).1 ≤ hi := by
  unfold randint
  refine ⟨Nat.le_add_right _ _, ?_⟩
  have : s.nats s.idx % (hi + 1 - lo) < hi + 1 - lo := Nat.mod_lt _ (by omega)
  simp only
  omega

theorem round2_bounds {m n : ℤ} {q : ℚ} (h1 : (m : ℚ) / 100 ≤ q)
    (h2 : q ≤ (n : ℚ) / 100) :
    (m : ℚ) / 100 ≤ round2 q ∧ round2 q ≤ (n : ℚ) / 100 := by
  unfold round2
  constructor
  · have hm : (m : ℚ) ≤ q * 100 + 1 / 2 := by linarith
    have hfl : m ≤ ⌊q * 100 + 1 / 2⌋ := Int.le_floor.mpr hm
    have hq : (m : ℚ) ≤ ((⌊q * 100 + 1 / 2⌋ : ℤ) : ℚ) := by exact_mod_cast hfl
    linarith
  · have hn : q * 100 + 1 / 2 < ((n + 1 : ℤ) : ℚ) := by push_cast; linarith
    have hfl : ⌊q * 100 + 1 / 2⌋ < n + 1 := Int.floor_lt.mpr hn
    have hle : ⌊q * 100 + 1 / 2⌋ ≤ n := by omega
    have hq : ((⌊q * 100 + 1 / 2⌋ : ℤ) : ℚ) ≤ (n : ℚ) := by exact_mod_cast hle
    linarith

/-! ## Execution lemmas -/

theorem randm_bind_def {α β : Type} (m : RandM α) (f : α → RandM β) (s : RState) :
    (m >>= f) s = f (m s).1 (m s).2 := rfl

theorem randm_pure_def {α : Type} (a : α) (s : RState) :
    (pure a : RandM α) s = (a, s) := rfl

theorem isCacheValid_true {ttl now storedAt : ℚ} (h : now - storedAt < ttl) :
    isCacheValid ttl now storedAt = true := decide_eq_true h

/-- A call whose key is not cached runs the post-cache-check body. -/
theorem getIntelligence_miss_eq (p : Provider) (now : ℚ) (ticker : String)
    (atype : AnalysisType) (addl : AdditionalParams) (exc : Option String) (s : RState)
    (hmiss : alookup p.cache (getCacheKey ticker atype.toValue) = none) :
    getIntelligence p now ticker atype addl exc s =
      getIntelligenceMiss p now ticker atype addl exc (getCacheKey ticker atype.toValue) s := by
  simp only [getIntelligence]
  rw [hmiss]

/-- A call whose key is cached and still valid returns the cached response
and leaves the provider untouched. -/
theorem getIntelligence_hit_eq (p : Provider) (now : ℚ) (ticker : String)
    (atype : AnalysisType) (addl : AdditionalParams) (exc : Option String) (s : RState)
    (r : IntelligenceResponse) (ts : ℚ)
    (hhit : alookup p.cache (getCacheKey ticker atype.toValue) = some (r, ts))
    (hvalid : now - ts < p.cacheTtl) :
    getIntelligence p now ticker atype addl exc s = ((r, p), s) := by
  simp only [getIntelligence]
  rw [hhit]
  simp [isCacheValid_true hvalid, randm_pure_def]

/-- The response assembled on the fresh (exception-free, cache-miss) path. -/
def freshResponse (p : Provider) (now : ℚ) (ticker : String) (atype : AnalysisType)
    (addl : AdditionalParams) (s : RState) : IntelligenceResponse :=
  { success := true
    data := (formatResponseForAnalysisType now (getCompanyData p now ticker s).1 atype ticker
      addl (getCompanyData p now ticker s).2).1
    errorMessage := "" }

/-- The draw-stream state left by the fresh path. -/
def freshState (p : Provider) (now : ℚ) (ticker : String) (atype : AnalysisType)
    (addl : AdditionalParams) (s : RState) : RState :=
  (formatResponseForAnalysisType now (getCompanyData p now ticker s).1 atype ticker addl
    (getCompanyData p now ticker s).2).2

/-- The normal (exception-free) body: gather, format, assemble, cache-store. -/
theorem getIntelligenceMiss_none_eq (p : Provider) (now : ℚ) (ticker : String)
    (atype : AnalysisType) (addl : AdditionalParams) (key : String) (s : RState) :
    getIntelligenceMiss p now ticker atype addl none key s =
      ((freshResponse p now ticker atype addl s,
        { p with cache := (key, freshResponse p now ticker atype addl s, now) :: p.cache
                 runs := p.runs + 1 }),
       freshState p now ticker atype addl s) := rfl

/-- The except handler for a ticker in neither table: the minimal failure
response, provider untouched. -/
theorem getIntelligenceMiss_exc_unknown_eq (p : Provider) (now : ℚ) (ticker : String)
    (atype : AnalysisType) (addl : AdditionalParams) (e : String) (key : String) (s : RState)
    (hcd : alookup p.companyData (pyUpper ticker) = none)
    (hfb : alookup p.fallbackData (pyUpper ticker) = none) :
    getIntelligenceMiss p now ticker atype addl (some e) key s =
      (({ success := false
          data := .dict [("company", .dict [("ticker", .str ticker)])]
          errorMessage := e }, p), s) := by
  simp [getIntelligenceMiss, hcd, hfb, randm_pure_def]

/-- The except handler when the ticker is found in a table: a freshly
formatted success response, cache untouched, pipeline re-run. -/
theorem getIntelligenceMiss_exc_known_eq (p : Provider) (now : ℚ) (ticker : String)
    (atype : AnalysisType) (addl : AdditionalParams) (e : String) (key : String) (s : RState)
    (hknown : ((alookup p.companyData (pyUpper ticker)).isSome
        || (alookup p.fallbackData (pyUpper ticker)).isSome) = true) :
    getIntelligenceMiss p now ticker atype addl (some e) key s =
      (({ success := true
          data := (freshResponse p now ticker atype addl s).data
          errorMessage := "" },
        { p with runs := p.runs + 1 }),
       freshState p now ticker atype addl s) := by
  simp only [getIntelligenceMiss]
  rw [if_pos hknown]
  rfl

/-- The except handler when the lookup condition fails, phrased on the
combined condition. -/
theorem getIntelligenceMiss_exc_cond_false_eq (p : Provider) (now : ℚ) (ticker : String)
    (atype : AnalysisType) (addl : AdditionalParams) (e : String) (key : String) (s : RState)
    (hcond : ((alookup p.companyData (pyUpper ticker)).isSome
        || (alookup p.fallbackData (pyUpper ticker)).isSome) = false) :
    getIntelligenceMiss p now ticker atype addl (some e) key s =
      (({ success := false
          data := .dict [("company", .dict [("ticker", .str ticker)])]
          errorMessage := e }, p), s) := by
  simp only [getIntelligenceMiss]
  rw [if_neg (by simp [hcond])]
  rfl

theorem alookup_cons_self {α : Type} (k : String) (v : α) (l : List (String × α)) :
    alookup ((k, v) :: l) k = some v := by
  unfold alookup
  rw [List.find?_cons_of_pos _ (by simp)]
  rfl

/-- A concrete draw stream/state for counterexamples and witnesses. -/
def zeroState : RState := { nats := fun _ => 0, rats := fun _ => 0, idx := 0 }

/-! ## Claim C2 -/

/-- **C2, counterexample**: `_get_cache_key` hashes the raw
`f"{ticker}:{analysis_type}"` without case-normalizing the ticker, so the
tickers "mstr" and "MSTR" receive different cache keys for the same
category, contradicting the claim that key derivation is a function of the
uppercased ticker. -/
theorem c2_counterexample :
    getCacheKey "mstr" AnalysisType.crypto.toValue
      ≠ getCacheKey "MSTR" AnalysisType.crypto.toValue := by decide

/-- **C2 (corrected)**: the cache key is a pure function of the raw ticker
string and category, with no case normalization; concretely, with a valid
entry cached under "MSTR"/CRYPTO, a call for "MSTR" is a cache hit while a
call for "mstr" misses and re-runs the pipeline (the run counter advances). -/
theorem c2_no_case_normalization
    (p : Provider) (t2 : ℚ) (s : RState) (addl : AdditionalParams)
    (r : IntelligenceResponse) (tStored : ℚ)
    (hcache : p.cache = [(getCacheKey "MSTR" AnalysisType.crypto.toValue, r, tStored)])
    (hvalid : t2 - tStored < p.cacheTtl) :
    (getIntelligence p t2 "MSTR" .crypto addl none s).1 = (r, p) ∧
    ((getIntelligence p t2 "mstr" .crypto addl none s).1).2.runs = p.runs + 1 := by
  constructor
  · rw [getIntelligence_hit_eq p t2 "MSTR" .crypto addl none s r tStored
      (by rw [hcache]; exact alookup_cons_self _ _ _) hvalid]
  · have hne : (getCacheKey "MSTR" AnalysisType.crypto.toValue
        == getCacheKey "mstr" AnalysisType.crypto.toValue) = false := by decide
    have hmiss : alookup p.cache (getCacheKey "mstr" AnalysisType.crypto.toValue) = none := by
      rw [hcache]
      unfold alookup
      rw [List.find?_cons_of_neg _ (by simp [hne])]
      rfl
    rw [getIntelligence_miss_eq p t2 "mstr" .crypto addl none s hmiss]
    rfl

/-- **C2 witness** for `c2_no_case_normalization` at a concrete provider. -/
theorem c2_witness :
    (getIntelligence
        { companyData := [], fallbackData := initialFallbackData 0, cacheTtl := 100,
          cache := [(getCacheKey "MSTR" AnalysisType.crypto.toValue,
            ⟨true, .dict [], ""⟩, 0)], runs := 0 }
        1 "MSTR" .crypto {} none zeroState).1
      = (⟨true, .dict [], ""⟩,
         { companyData := [], fallbackData := initialFallbackData 0, cacheTtl := 100,
           cache := [(getCacheKey "MSTR" AnalysisType.crypto.toValue,
             ⟨true, .dict [], ""⟩, 0)], runs := 0 }) ∧
    ((getIntelligence
        { companyData := [], fallbackData := initialFallbackData 0, cacheTtl := 100,
          cache := [(getCacheKey "MSTR" AnalysisType.crypto.toValue,
            ⟨true, .dict [], ""⟩, 0)], runs := 0 }
        1 "mstr" .crypto {} none zeroState).1).2.runs = 0 + 1 :=
  c2_no_case_normalization _ 1 zeroState {} ⟨true, .dict [], ""⟩ 0 rfl
    (show (1 : ℚ) - 0 < 100 by norm_num)

/-! ## Claim C3 -/

/-- **C3, counterexample**: an exception escaping the pipeline for ticker
"MSTR" — which is present in the fallback table — makes the except handler
return a freshly formatted `success = true` response, not the
`success = false` failure envelope the claim requires for every escaping
exception. -/
theorem c3_counterexample :
    (((getIntelligence (mkProvider [] 100 0) 0 "MSTR" .crypto {} (some "boom")
        zeroState).1).1).success = true := rfl

/-- **C3 (corrected)**: when an exception escapes the pipeline *and* the
uppercased ticker is in neither the curated table nor the fallback table, the
call returns `success = false`, the minimal `{company: {ticker}}` payload and
the exception's description as `errorMessage`, and the provider state —
including the cache — is unchanged.  (For a ticker present in either table
the handler instead returns a freshly formatted `success = true` response,
also without writing the cache.) -/
theorem c3_total_failure_envelope
    (p : Provider) (now : ℚ) (s : RState) (ticker : String)
    (atype : AnalysisType) (addl : AdditionalParams) (e : String)
    (hmiss : alookup p.cache (getCacheKey ticker atype.toValue) = none)
    (hcd : alookup p.companyData (pyUpper ticker) = none)
    (hfb : alookup p.fallbackData (pyUpper ticker) = none) :
    (getIntelligence p now ticker atype addl (some e) s).1 =
      ({ success := false
         data := .dict [("company", .dict [("ticker", .str ticker)])]
         errorMessage := e }, p) := by
  rw [getIntelligence_miss_eq p now ticker atype addl (some e) s hmiss,
    getIntelligenceMiss_exc_unknown_eq p now ticker atype addl e _ s hcd hfb]

/-- **C3 witness** for `c3_total_failure_envelope` at ticker "ZZZZ". -/
theorem c3_witness :
    (getIntelligence (mkProvider [] 100 0) 0 "ZZZZ" .crypto {} (some "boom") zeroState).1 =
      ({ success := false
         data := .dict [("company", .dict [("ticker", .str "ZZZZ")])]
         errorMessage := "boom" }, mkProvider [] 100 0) :=
  c3_total_failure_envelope (mkProvider [] 100 0) 0 zeroState "ZZZZ" .crypto {} "boom"
    rfl rfl rfl

/-! ## Claim C4 -/

/-- **C4**: for two valid source results with confidences `c1`, `c2` sharing a
numeric field with values `v1`, `v2`, the confidence aggregator merges that
field to `v1·c1/(c1+c2) + v2·c2/(c1+c2)` (exactly, over `ℚ`), and a single
valid result passes through unchanged as the candidate with its confidence
preserved. -/
theorem c4_weighted_merge_law
    (d1 d2 : Fields) (c1 c2 v1 v2 : ℚ) (k : String)
    (h1 : dget d1 k = some (.num v1)) (h2 : dget d2 k = some (.num v2))
    (hc1 : 0 < c1) (hc2 : 0 < c2) :
    mergedField [⟨d1, c1⟩, ⟨d2, c2⟩] k
      = .num (v1 * c1 / (c1 + c2) + v2 * c2 / (c1 + c2)) ∧
    ∀ r : SourceResult, aggregate [r] = some (r.data, r.confidence) := by
  constructor
  · have hg1 : getNum d1 k = some v1 := by simp [getNum, h1, Value.asNum]
    have hg2 : getNum d2 k = some v2 := by simp [getNum, h2, Value.asNum]
    have hcs : contributors [⟨d1, c1⟩, ⟨d2, c2⟩] k = [⟨d1, c1⟩, ⟨d2, c2⟩] := by
      simp [contributors, List.filter, h1, h2]
    simp only [mergedField, hcs, List.all_cons, List.all_nil, hg1, hg2,
      Option.isSome_some, Bool.and_true, Bool.and_self, if_true, List.map_cons,
      List.map_nil, List.sum_cons, List.sum_nil, Option.getD_some, Value.num.injEq]
    have hne : c1 + c2 ≠ 0 := by positivity
    field_simp
    ring
  · intro r
    rfl

/-- **C4 witness** for `c4_weighted_merge_law` at concrete records. -/
theorem c4_witness :
    mergedField [⟨[("x", .num 10)], 1⟩, ⟨[("x", .num 20)], 3⟩] "x"
      = .num (10 * 1 / (1 + 3) + 20 * 3 / (1 + 3)) ∧
    aggregate [⟨[("y", .num 5)], 1 / 2⟩] = some ([("y", .num 5)], 1 / 2) :=
  ⟨(c4_weighted_merge_law [("x", .num 10)] [("x", .num 20)] 1 3 10 20 "x" rfl rfl
      (by norm_num) (by norm_num)).1,
   (c4_weighted_merge_law [("x", .num 10)] [("x", .num 20)] 1 3 10 20 "x" rfl rfl
      (by norm_num) (by norm_num)).2 ⟨[("y", .num 5)], 1 / 2⟩⟩

/-! ## Claim C5 -/

/-- **C5**: if the first call for an uncached (ticker, category) runs the
pipeline and the second identical call arrives while `now - storedAt < TTL`
holds for the stored entry, the second call returns exactly the cached
response with the provider state unchanged (in particular no pipeline re-run:
the run counter stays put, as the returned state is the first call's state);
and an entry is valid exactly when `now - storedAt` is strictly below the
TTL. -/
theorem c5_cache_hit_within_ttl
    (p : Provider) (t1 t2 ttl now storedAt : ℚ) (s1 s2 : RState) (ticker : String)
    (atype : AnalysisType) (addl : AdditionalParams)
    (hmiss : alookup p.cache (getCacheKey ticker atype.toValue) = none)
    (httl : t2 - t1 < p.cacheTtl) :
    (getIntelligence ((getIntelligence p t1 ticker atype addl none s1).1).2 t2 ticker
        atype addl none s2).1
      = (getIntelligence p t1 ticker atype addl none s1).1 ∧
    (isCacheValid ttl now storedAt = true ↔ now - storedAt < ttl) := by
  refine ⟨?_, by simp [isCacheValid]⟩
  rw [getIntelligence_miss_eq p t1 ticker atype addl none s1 hmiss,
    getIntelligenceMiss_none_eq,
    getIntelligence_hit_eq
      { p with cache := (getCacheKey ticker atype.toValue,
          freshResponse p t1 ticker atype addl s1, t1) :: p.cache
               runs := p.runs + 1 }
      t2 ticker atype addl none s2 (freshResponse p t1 ticker atype addl s1) t1
      (alookup_cons_self _ _ _) httl]

/-- **C5 witness** for `c5_cache_hit_within_ttl` at a concrete provider. -/
theorem c5_witness :
    (getIntelligence ((getIntelligence (mkProvider [] 100 0) 0 "MSTR" .crypto {}
        none zeroState).1).2 1 "MSTR" .crypto {} none zeroState).1
      = (getIntelligence (mkProvider [] 100 0) 0 "MSTR" .crypto {} none zeroState).1 ∧
    (isCacheValid 5 3 1 = true ↔ (3 : ℚ) - 1 < 5) :=
  c5_cache_hit_within_ttl (mkProvider [] 100 0) 0 1 5 3 1 zeroState zeroState
    "MSTR" .crypto {} rfl (show (1 : ℚ) - 0 < 100 by norm_num)

/-! ## Claim C9 -/

/-- **C9**: responses assembled inside the exception handler are never
written to the cache — the provider's cache after such a call is exactly the
cache before it — and a subsequent identical request (exception-free) runs
the pipeline again (the ghost run counter advances by one). -/
theorem c9_handler_no_cache_write
    (p : Provider) (now now2 : ℚ) (s s2 : RState) (ticker : String)
    (atype : AnalysisType) (addl : AdditionalParams) (e : String)
    (hmiss : alookup p.cache (getCacheKey ticker atype.toValue) = none) :
    ((getIntelligence p now ticker atype addl (some e) s).1).2.cache = p.cache ∧
    ((getIntelligence ((getIntelligence p now ticker atype addl (some e) s).1).2 now2 ticker
        atype addl none s2).1).2.runs
      = ((getIntelligence p now ticker atype addl (some e) s).1).2.runs + 1 := by
  rw [getIntelligence_miss_eq p now ticker atype addl (some e) s hmiss]
  cases hcond : ((alookup p.companyData (pyUpper ticker)).isSome
      || (alookup p.fallbackData (pyUpper ticker)).isSome) with
  | true =>
      rw [getIntelligenceMiss_exc_known_eq p now ticker atype addl e _ s hcond]
      refine ⟨rfl, ?_⟩
      dsimp only
      rw [getIntelligence_miss_eq { p with runs := p.runs + 1 } now2 ticker atype addl
          none s2 hmiss,
        getIntelligenceMiss_none_eq]
  | false =>
      rw [getIntelligenceMiss_exc_cond_false_eq p now ticker atype addl e _ s hcond]
      refine ⟨rfl, ?_⟩
      dsimp only
      rw [getIntelligence_miss_eq p now2 ticker atype addl none s2 hmiss,
        getIntelligenceMiss_none_eq]

/-- **C9 witness** for `c9_handler_no_cache_write` with ticker "MSTR". -/
theorem c9_witness :
    ((getIntelligence (mkProvider [] 100 0) 0 "MSTR" .crypto {} (some "boom")
        zeroState).1).2.cache = (mkProvider [] 100 0).cache ∧
    ((getIntelligence ((getIntelligence (mkProvider [] 100 0) 0 "MSTR" .crypto {}
        (some "boom") zeroState).1).2 1 "MSTR" .crypto {} none zeroState).1).2.runs
      = ((getIntelligence (mkProvider [] 100 0) 0 "MSTR" .crypto {} (some "boom")
        zeroState).1).2.runs + 1 :=
  c9_handler_no_cache_write (mkProvider [] 100 0) 0 1 zeroState zeroState
    "MSTR" .crypto {} "boom" rfl

/-! ## Claims C1, C6, C7 -/

/-- The three scalar quality indicators, each present with a value in
`[0, 1]`. -/
def scoreTriple (v : Value) : Prop :=
  (∃ q, getNumAt v ["confidenceScore"] = some q ∧ 0 ≤ q ∧ q ≤ 1) ∧
  (∃ q, getNumAt v ["freshnessScore"] = some q ∧ 0 ≤ q ∧ q ≤ 1) ∧
  (∃ q, getNumAt v ["completenessScore"] = some q ∧ 0 ≤ q ∧ q ≤ 1)

theorem scoreTriple_intro {v : Value}
    (h1 : getNumAt v ["confidenceScore"] = some 0.95)
    (h2 : getNumAt v ["freshnessScore"] = some 0.98)
    (h3 : getNumAt v ["completenessScore"] = some 0.95) : scoreTriple v :=
  ⟨⟨0.95, h1, by norm_num, by norm_num⟩,
   ⟨0.98, h2, by norm_num, by norm_num⟩,
   ⟨0.95, h3, by norm_num, by norm_num⟩⟩

/-- Every formatter except the NEWS one attaches the constant quality scores
0.95 / 0.98 / 0.95 at the top of its output. -/
theorem formatResponse_scores (now : ℚ) (data : Fields) (atype : AnalysisType)
    (ticker : String) (addl : AdditionalParams) (s : RState) (h : atype ≠ .news) :
    scoreTriple ((formatResponseForAnalysisType now data atype ticker addl s).1) := by
  cases atype with
  | news => exact absurd rfl h
  | crypto => exact scoreTriple_intro rfl rfl rfl
  | financial => exact scoreTriple_intro rfl rfl rfl
  | sentiment => exact scoreTriple_intro rfl rfl rfl
  | generic => exact scoreTriple_intro rfl rfl rfl

/-- **C1, counterexample**: a successful NEWS call returns a data mapping
containing none of the three quality indicators — `_format_news_response` is
the one formatter that omits them, while the claim asserts them for every
category. -/
theorem c1_counterexample :
    (((getIntelligence (mkProvider [] 100 0) 0 "AAPL" .news {} none zeroState).1).1).success
        = true ∧
    ((((getIntelligence (mkProvider [] 100 0) 0 "AAPL" .news {} none
        zeroState).1).1).data.getAt ["confidenceScore"]).isNone = true ∧
    ((((getIntelligence (mkProvider [] 100 0) 0 "AAPL" .news {} none
        zeroState).1).1).data.getAt ["freshnessScore"]).isNone = true ∧
    ((((getIntelligence (mkProvider [] 100 0) 0 "AAPL" .news {} none
        zeroState).1).1).data.getAt ["completenessScore"]).isNone = true :=
  ⟨rfl, rfl, rfl, rfl⟩

/-- **C1 (corrected)**: for the CRYPTO, FINANCIAL, SENTIMENT and generic
paths — but not NEWS — the data mapping of any successful `get_intelligence`
call (fresh cache) carries the three scalar quality indicators
confidenceScore, freshnessScore and completenessScore, each in `[0, 1]`
(concretely the constants 0.95, 0.98, 0.95). -/
theorem c1_scores_on_success
    (cd : List (String × Fields)) (ttl t0 now : ℚ) (s : RState) (ticker : String)
    (atype : AnalysisType) (addl : AdditionalParams) (exc : Option String)
    (hA : atype ≠ .news)
    (hS : (((getIntelligence (mkProvider cd ttl t0) now ticker atype addl exc
        s).1).1).success = true) :
    scoreTriple
      (((getIntelligence (mkProvider cd ttl t0) now ticker atype addl exc s).1).1).data := by
  have hmiss : alookup (mkProvider cd ttl t0).cache (getCacheKey ticker atype.toValue)
      = none := rfl
  cases exc with
  | none =>
      rw [getIntelligence_miss_eq _ now ticker atype addl none s hmiss,
        getIntelligenceMiss_none_eq]
      exact formatResponse_scores now _ atype ticker addl _ hA
  | some e =>
      rw [getIntelligence_miss_eq _ now ticker atype addl (some e) s hmiss] at hS ⊢
      cases hcond : ((alookup (mkProvider cd ttl t0).companyData (pyUpper ticker)).isSome
          || (alookup (mkProvider cd ttl t0).fallbackData (pyUpper ticker)).isSome) with
      | true =>
          rw [getIntelligenceMiss_exc_known_eq _ now ticker atype addl e _ s hcond]
          exact formatResponse_scores now _ atype ticker addl _ hA
      | false =>
          rw [getIntelligenceMiss_exc_cond_false_eq _ now ticker atype addl e _ s hcond] at hS
          simp at hS

/-- **C1 witness** for `c1_scores_on_success` at a CRYPTO call. -/
theorem c1_witness :
    scoreTriple
      (((getIntelligence (mkProvider [] 100 0) 0 "MSTR" .crypto {} none
        zeroState).1).1).data :=
  c1_scores_on_success [] 100 0 0 zeroState "MSTR" .crypto {} none (by decide) rfl

/-- An uncached ticker that hits the fallback table resolves to its row. -/
theorem getCompanyData_mstr (cd : List (String × Fields)) (ttl t0 now : ℚ) (s : RState)
    (hMSTR : alookup cd "MSTR" = none) :
    getCompanyData (mkProvider cd ttl t0) now "MSTR" s = (mstrFallbackRow t0, s) := by
  have h : alookup cd (pyUpper "MSTR") = none := hMSTR
  simp only [getCompanyData, mkProvider]
  rw [h]
  rfl

/-- A ticker absent from both tables resolves to the synthesized record. -/
theorem getCompanyData_synthetic (cd : List (String × Fields)) (ttl t0 now : ℚ)
    (ticker : String) (s : RState)
    (hcd : alookup cd (pyUpper ticker) = none)
    (hfb : alookup (initialFallbackData t0) (pyUpper ticker) = none) :
    getCompanyData (mkProvider cd ttl t0) now ticker s = syntheticCompanyData now ticker s := by
  simp only [getCompanyData, mkProvider]
  rw [hcd, hfb]

/-- **C6**: `getIntelligence("MSTR", CRYPTO, {})` with no reachable sources
(the curated file does not supply MSTR, so the hand-authored fallback row is
used): the call succeeds, echoes the ticker, returns a non-empty
crypto-holdings block, and carries the three quality scores in `[0, 1]`. -/
theorem c6_mstr_crypto_scenario
    (cd : List (String × Fields)) (ttl t0 now : ℚ) (s : RState)
    (hMSTR : alookup cd "MSTR" = none) :
    (((getIntelligence (mkProvider cd ttl t0) now "MSTR" .crypto {} none s).1).1).success
        = true ∧
    getStrAt (((getIntelligence (mkProvider cd ttl t0) now "MSTR" .crypto {} none
        s).1).1).data ["company", "ticker"] = some "MSTR" ∧
    (∃ l, getListAt (((getIntelligence (mkProvider cd ttl t0) now "MSTR" .crypto {} none
        s).1).1).data ["company", "cryptoHoldings"] = some l ∧ l ≠ []) ∧
    scoreTriple (((getIntelligence (mkProvider cd ttl t0) now "MSTR" .crypto {} none
        s).1).1).data := by
  have hmiss : alookup (mkProvider cd ttl t0).cache
      (getCacheKey "MSTR" AnalysisType.crypto.toValue) = none := rfl
  rw [getIntelligence_miss_eq _ now "MSTR" .crypto {} none s hmiss,
    getIntelligenceMiss_none_eq]
  dsimp only [freshResponse]
  rw [getCompanyData_mstr cd ttl t0 now s hMSTR]
  exact ⟨rfl, rfl, ⟨_, rfl, by simp⟩, scoreTriple_intro rfl rfl rfl⟩

/-- **C6 witness** for `c6_mstr_crypto_scenario` with an empty curated
table. -/
theorem c6_witness :
    (((getIntelligence (mkProvider [] 100 0) 0 "MSTR" .crypto {} none
        zeroState).1).1).success = true ∧
    getStrAt (((getIntelligence (mkProvider [] 100 0) 0 "MSTR" .crypto {} none
        zeroState).1).1).data ["company", "ticker"] = some "MSTR" ∧
    (∃ l, getListAt (((getIntelligence (mkProvider [] 100 0) 0 "MSTR" .crypto {} none
        zeroState).1).1).data ["company", "cryptoHoldings"] = some l ∧ l ≠ []) ∧
    scoreTriple (((getIntelligence (mkProvider [] 100 0) 0 "MSTR" .crypto {} none
        zeroState).1).1).data :=
  c6_mstr_crypto_scenario [] 100 0 0 zeroState rfl

/-- **C7**: `getIntelligence("ZZZZ", FINANCIAL, {fields: ["eps"]})` for a
ticker absent from the curated and fallback tables, with no sources
reachable: success, synthesized company name "ZZZZ Corporation", and a
complete financial metrics block (marketCap, sharePrice, volume, eps,
bookValue, sector, industry) with defaulted values. -/
theorem c7_zzzz_financial_scenario
    (cd : List (String × Fields)) (ttl t0 now : ℚ) (s : RState)
    (hZ : alookup cd "ZZZZ" = none) :
    (((getIntelligence (mkProvider cd ttl t0) now "ZZZZ" .financial
        { fields := some ["eps"] } none s).1).1).success = true ∧
    getStrAt (((getIntelligence (mkProvider cd ttl t0) now "ZZZZ" .financial
        { fields := some ["eps"] } none s).1).1).data ["company", "companyName"]
      = some "ZZZZ Corporation" ∧
    ((getNumAt (((getIntelligence (mkProvider cd ttl t0) now "ZZZZ" .financial
        { fields := some ["eps"] } none s).1).1).data
        ["company", "data", "marketCap"]).isSome = true ∧
     (getNumAt (((getIntelligence (mkProvider cd ttl t0) now "ZZZZ" .financial
        { fields := some ["eps"] } none s).1).1).data
        ["company", "data", "sharePrice"]).isSome = true ∧
     (getNumAt (((getIntelligence (mkProvider cd ttl t0) now "ZZZZ" .financial
        { fields := some ["eps"] } none s).1).1).data
        ["company", "data", "volume"]).isSome = true ∧
     (getNumAt (((getIntelligence (mkProvider cd ttl t0) now "ZZZZ" .financial
        { fields := some ["eps"] } none s).1).1).data
        ["company", "data", "eps"]).isSome = true ∧
     (getNumAt (((getIntelligence (mkProvider cd ttl t0) now "ZZZZ" .financial
        { fields := some ["eps"] } none s).1).1).data
        ["company", "data", "bookValue"]).isSome = true ∧
     (getStrAt (((getIntelligence (mkProvider cd ttl t0) now "ZZZZ" .financial
        { fields := some ["eps"] } none s).1).1).data
        ["company", "data", "sector"]).isSome = true ∧
     (getStrAt (((getIntelligence (mkProvider cd ttl t0) now "ZZZZ" .financial
        { fields := some ["eps"] } none s).1).1).data
        ["company", "data", "industry"]).isSome = true) := by
  have hmiss : alookup (mkProvider cd ttl t0).cache
      (getCacheKey "ZZZZ" AnalysisType.financial.toValue) = none := rfl
  have hcd : alookup cd (pyUpper "ZZZZ") = none := hZ
  have hfb : alookup (initialFallbackData t0) (pyUpper "ZZZZ") = none := rfl
  rw [getIntelligence_miss_eq _ now "ZZZZ" .financial _ none s hmiss,
    getIntelligenceMiss_none_eq]
  dsimp only [freshResponse]
  rw [getCompanyData_synthetic cd ttl t0 now "ZZZZ" s hcd hfb]
  exact ⟨rfl, rfl, rfl, rfl, rfl, rfl, rfl, rfl, rfl⟩

/-- **C7 witness** for `c7_zzzz_financial_scenario` with an empty curated
table. -/
theorem c7_witness :
    (((getIntelligence (mkProvider [] 100 0) 0 "ZZZZ" .financial
        { fields := some ["eps"] } none zeroState).1).1).success = true ∧
    getStrAt (((getIntelligence (mkProvider [] 100 0) 0 "ZZZZ" .financial
        { fields := some ["eps"] } none zeroState).1).1).data ["company", "companyName"]
      = some "ZZZZ Corporation" ∧
    ((getNumAt (((getIntelligence (mkProvider [] 100 0) 0 "ZZZZ" .financial
        { fields := some ["eps"] } none zeroState).1).1).data
        ["company", "data", "marketCap"]).isSome = true ∧
     (getNumAt (((getIntelligence (mkProvider [] 100 0) 0 "ZZZZ" .financial
        { fields := some ["eps"] } none zeroState).1).1).data
        ["company", "data", "sharePrice"]).isSome = true ∧
     (getNumAt (((getIntelligence (mkProvider [] 100 0) 0 "ZZZZ" .financial
        { fields := some ["eps"] } none zeroState).1).1).data
        ["company", "data", "volume"]).isSome = true ∧
     (getNumAt (((getIntelligence (mkProvider [] 100 0) 0 "ZZZZ" .financial
        { fields := some ["eps"] } none zeroState).1).1).data
        ["company", "data", "eps"]).isSome = true ∧
     (getNumAt (((getIntelligence (mkProvider [] 100 0) 0 "ZZZZ" .financial
        { fields := some ["eps"] } none zeroState).1).1).data
        ["company", "data", "bookValue"]).isSome = true ∧
     (getStrAt (((getIntelligence (mkProvider [] 100 0) 0 "ZZZZ" .financial
        { fields := some ["eps"] } none zeroState).1).1).data
        ["company", "data", "sector"]).isSome = true ∧
     (getStrAt (((getIntelligence (mkProvider [] 100 0) 0 "ZZZZ" .financial
        { fields := some ["eps"] } none zeroState).1).1).data
        ["company", "data", "industry"]).isSome = true) :=
  c7_zzzz_financial_scenario [] 100 0 0 zeroState rfl

/-! ## Claim C8 -/

theorem sample_len {α : Type} (l : List α) (k : Nat) (s : RState) :
    (((sample l k) s).1).length = min k l.length := by
  unfold sample
  have hmod : s.nats s.idx % (l.length + 1) ≤ l.length := by
    have := Nat.mod_lt (s.nats s.idx) (y := l.length + 1) (by omega)
    omega
  simp only [List.length_take, List.length_append, List.length_drop, List.length_take]
  omega

theorem buildArticles_len (now : ℚ) (inc : Bool) (ticker : String) :
    ∀ (l : List Value) (i : Nat) (s : RState),
      (((buildArticles now inc ticker i l) s).1).length = l.length := by
  intro l
  induction l with
  | nil => intro i s; rfl
  | cons a l ih =>
      intro i s
      cases inc <;>
        simp only [buildArticles, randm_bind_def, randm_pure_def, Bool.false_eq_true,
          if_false, if_true, List.length_cons, ih]

theorem buildGeneralNews_len (t c : String) (s : RState) :
    (((buildGeneralNews t c) s).1).length = 3 := rfl

theorem alookup_len3 (sec : String) (L : List (String × List Value)) (l : List Value)
    (hall : ∀ p ∈ L, (p.2).length = 3)
    (h : alookup L sec = some l) : l.length = 3 := by
  unfold alookup at h
  rcases hf : List.find? (fun p => p.1 == sec) L with _ | a
  · rw [hf] at h; simp at h
  · rw [hf] at h
    simp at h
    exact h ▸ hall a (List.mem_of_find?_eq_some hf)

theorem buildSectorNews_all_len3 (t c : String) (s : RState) :
    ∀ p ∈ (((buildSectorNews t c) s).1), (p.2).length = 3 := by
  intro p hp
  simp only [buildSectorNews, randm_bind_def, randm_pure_def] at hp
  simp only [List.mem_cons, List.not_mem_nil, or_false] at hp
  rcases hp with rfl | rfl | rfl | rfl <;> rfl

/-- The `available_news` list has exactly three entries whichever branch of
`sector_news.get(sector, [...])` is taken. -/
theorem avail_news_len (t c sec : String) (s1 s2 : RState) :
    (((alookup (((buildSectorNews t c) s1).1) sec).getD
      (((buildGeneralNews t c) s2).1))).length = 3 := by
  rcases h : alookup (((buildSectorNews t c) s1).1) sec with _ | l
  · simpa using buildGeneralNews_len t c s2
  · simpa using alookup_len3 sec _ l (buildSectorNews_all_len3 t c s1) h

/-- The article list of `_format_news_response`: at most three articles
(whatever `max_articles` asks for), and `totalArticles` is its exact
length. -/
theorem formatNews_articles_spec (now : ℚ) (data : Fields) (ticker : String)
    (addl : AdditionalParams) (s : RState) :
    ∃ arts : List Value,
      getListAt ((formatNewsResponse now data ticker addl s).1) ["company", "newsArticles"]
        = some arts ∧
      arts.length ≤ 3 ∧
      getNumAt ((formatNewsResponse now data ticker addl s).1) ["company", "totalArticles"]
        = some (arts.length : ℚ) := by
  refine ⟨_, rfl, ?_, rfl⟩
  rw [buildArticles_len, sample_len, avail_news_len]
  omega

/-- **C8**: for every ticker and every NEWS request — whatever the
`max_articles` parameter (default 10) — the returned articles list holds at
most 3 articles (the per-sector template pool size), and `totalArticles`
always equals the length of the returned articles list. -/
theorem c8_news_article_cap
    (cd : List (String × Fields)) (ttl t0 now : ℚ) (s : RState) (ticker : String)
    (addl : AdditionalParams) :
    ∃ arts : List Value,
      getListAt (((getIntelligence (mkProvider cd ttl t0) now ticker .news addl none
          s).1).1).data ["company", "newsArticles"] = some arts ∧
      arts.length ≤ 3 ∧
      getNumAt (((getIntelligence (mkProvider cd ttl t0) now ticker .news addl none
          s).1).1).data ["company", "totalArticles"] = some (arts.length : ℚ) := by
  rw [getIntelligence_miss_eq (mkProvider cd ttl t0) now ticker .news addl none s rfl,
    getIntelligenceMiss_none_eq]
  dsimp only [freshResponse]
  exact formatNews_articles_spec now _ ticker addl _

/-! ## Claim C10 -/

theorem round2_uniform01_bounds (s : RState) :
    1 / 10 ≤ round2 ((uniform 0.1 1 s).1) ∧ round2 ((uniform 0.1 1 s).1) ≤ 1 := by
  obtain ⟨h1, h2⟩ := uniform_mem (by norm_num : (0.1 : ℚ) ≤ 1) s
  norm_num at h1
  have h1' : ((10 : ℤ) : ℚ) / 100 ≤ (uniform 0.1 1 s).1 := by push_cast; linarith
  have h2' : (uniform 0.1 1 s).1 ≤ ((100 : ℤ) : ℚ) / 100 := by push_cast; linarith
  obtain ⟨hb1, hb2⟩ := round2_bounds h1' h2'
  push_cast at hb1 hb2
  constructor <;> linarith

theorem mkSentimentSource_score (now : ℚ) (name : String) (s : RState) :
    ∃ q, getNum ((((mkSentimentSource now name) s).1).asDict.getD []) "score" = some q ∧
      1 / 10 ≤ q ∧ q ≤ 1 := by
  refine ⟨_, rfl, ?_, ?_⟩
  · exact (round2_uniform01_bounds _).1
  · exact (round2_uniform01_bounds _).2

theorem mapRand_len {α β : Type} (f : α → RandM β) :
    ∀ (l : List α) (s : RState), ((((mapRand f l)) s).1).length = l.length := by
  intro l
  induction l with
  | nil => intro s; rfl
  | cons a l ih =>
      intro s
      simp only [mapRand, randm_bind_def, randm_pure_def, List.length_cons, ih]

theorem mapRand_mkSS_scores (now : ℚ) :
    ∀ (l : List String) (s : RState),
      ∀ v ∈ (((mapRand (mkSentimentSource now) l) s).1), ∃ q,
        getNum (v.asDict.getD []) "score" = some q ∧ 1 / 10 ≤ q ∧ q ≤ 1 := by
  intro l
  induction l with
  | nil => intro s v hv; simp [mapRand, randm_pure_def] at hv
  | cons a l ih =>
      intro s v hv
      simp only [mapRand, randm_bind_def, randm_pure_def, List.mem_cons] at hv
      rcases hv with rfl | hv
      · exact mkSentimentSource_score now a _
      · exact ih _ v hv

theorem sourceCategoryNames_len {t : String} {names : List String}
    (h : sourceCategoryNames t = some names) : 2 ≤ names.length := by
  unfold sourceCategoryNames at h
  split_ifs at h <;> cases h
  · have h7 : socialSources.length = 7 := rfl
    omega
  · have h8 : newsChannelSources.length = 8 := rfl
    omega
  · have h9 : analystSources.length = 9 := rfl
    omega

theorem randint12_cases (s : RState) :
    ((randint 1 2 s).1) = 1 ∨ ((randint 1 2 s).1) = 2 := by
  unfold randint
  simp only
  omega

/-- One reduction step of the source-generation loop at a recognized type. -/
theorem genSources_cons_some_eq (now : ℚ) (t : String) (names rest : List String)
    (s : RState) (hsc : sourceCategoryNames t = some names) :
    ((genSources now (t :: rest)) s)
      = (let r1 := randint 1 2 s
         let r2 := sample names (min r1.1 names.length) r1.2
         let r3 := mapRand (mkSentimentSource now) r2.1 r2.2
         let r4 := genSources now rest r3.2
         (r3.1 ++ r4.1, r4.2)) := by
  simp only [genSources, hsc]
  rfl

/-- One reduction step of the source-generation loop at an unrecognized
type: it contributes nothing. -/
theorem genSources_cons_none_eq (now : ℚ) (t : String) (rest : List String)
    (s : RState) (hsc : sourceCategoryNames t = none) :
    ((genSources now (t :: rest)) s) = genSources now rest s := by
  simp only [genSources, hsc]

/-- The generated list splits into one block per requested type: a
recognized type contributes one or two entries, an unrecognized one an empty
block. -/
theorem genSources_blocks (now : ℚ) :
    ∀ (types : List String) (s : RState),
      ∃ blocks : List (List Value),
        ((genSources now types) s).1 = blocks.flatten ∧
        List.Forall₂ (fun t b =>
          match sourceCategoryNames t with
          | some _ => b.length = 1 ∨ b.length = 2
          | none => b = []) types blocks := by
  intro types
  induction types with
  | nil => intro s; exact ⟨[], rfl, List.Forall₂.nil⟩
  | cons t rest ih =>
      intro s
      rcases hsc : sourceCategoryNames t with _ | names
      · obtain ⟨blocks, hflat, hall⟩ := ih s
        rw [genSources_cons_none_eq now t rest s hsc]
        refine ⟨[] :: blocks, ?_, List.Forall₂.cons (by simp [hsc]) hall⟩
        simpa using hflat
      · rw [genSources_cons_some_eq now t names rest s hsc]
        dsimp only
        rcases h1 : randint 1 2 s with ⟨num, s1⟩
        rcases h2 : sample names (min num names.length) s1 with ⟨selected, s2⟩
        rcases h3 : mapRand (mkSentimentSource now) selected s2 with ⟨entries, s3⟩
        obtain ⟨blocks, hflat, hall⟩ := ih s3
        refine ⟨entries :: blocks, ?_, List.Forall₂.cons ?_ hall⟩
        · rw [List.flatten_cons, hflat]
        · have hnum : num = 1 ∨ num = 2 := by
            have := randint12_cases s
            rw [h1] at this
            exact this
          have hL := sourceCategoryNames_len hsc
          have hel : entries.length = min (min num names.length) names.length := by
            have he : entries = ((mapRand (mkSentimentSource now) selected) s2).1 := by
              rw [h3]
            have hsel : selected = ((sample names (min num names.length)) s1).1 := by
              rw [h2]
            rw [he, mapRand_len, hsel, sample_len]
          simp only [hsc]
          rcases hnum with rfl | rfl
          · left; rw [hel]; omega
          · right; rw [hel]; omega

/-- Every generated source entry carries a score in `[0.1, 1]`. -/
theorem genSources_scores (now : ℚ) :
    ∀ (types : List String) (s : RState),
      ∀ v ∈ ((genSources now types) s).1, ∃ q,
        getNum (v.asDict.getD []) "score" = some q ∧ 1 / 10 ≤ q ∧ q ≤ 1 := by
  intro types
  induction types with
  | nil => intro s v hv; simp [genSources, randm_pure_def] at hv
  | cons t rest ih =>
      intro s v hv
      rcases hsc : sourceCategoryNames t with _ | names
      · rw [genSources_cons_none_eq now t rest s hsc] at hv
        exact ih s v hv
      · rw [genSources_cons_some_eq now t names rest s hsc] at hv
        dsimp only at hv
        rcases h1 : randint 1 2 s with ⟨num, s1⟩
        rw [h1] at hv
        rcases h2 : sample names (min num names.length) s1 with ⟨selected, s2⟩
        rw [h2] at hv
        rcases h3 : mapRand (mkSentimentSource now) selected s2 with ⟨entries, s3⟩
        rw [h3] at hv
        rcases List.mem_append.mp hv with hv | hv
        · have he : entries = ((mapRand (mkSentimentSource now) selected) s2).1 := by
            rw [h3]
          rw [he] at hv
          exact mapRand_mkSS_scores now selected s2 v hv
        · exact ih s3 v hv

/-- The generated list is empty exactly when no requested type is
recognized. -/
theorem genSources_empty_iff (now : ℚ) :
    ∀ (types : List String) (s : RState),
      (((genSources now types) s).1 = [] ↔
        types.all (fun t => (sourceCategoryNames t).isNone) = true) := by
  intro types
  induction types with
  | nil => intro s; simp [genSources, randm_pure_def]
  | cons t rest ih =>
      intro s
      rcases hsc : sourceCategoryNames t with _ | names
      · rw [genSources_cons_none_eq now t rest s hsc]
        simp only [List.all_cons, hsc, Option.isNone_none, Bool.true_and]
        exact ih s
      · rw [genSources_cons_some_eq now t names rest s hsc]
        dsimp only
        rcases h1 : randint 1 2 s with ⟨num, s1⟩
        rcases h2 : sample names (min num names.length) s1 with ⟨selected, s2⟩
        rcases h3 : mapRand (mkSentimentSource now) selected s2 with ⟨entries, s3⟩
        have hnum : num = 1 ∨ num = 2 := by
          have := randint12_cases s
          rw [h1] at this
          exact this
        have hL := sourceCategoryNames_len hsc
        have hel : entries.length = min (min num names.length) names.length := by
          have he : entries = ((mapRand (mkSentimentSource now) selected) s2).1 := by
            rw [h3]
          have hsel : selected = ((sample names (min num names.length)) s1).1 := by
            rw [h2]
          rw [he, mapRand_len, hsel, sample_len]
        have hpos : entries ≠ [] := by
          intro hnil
          rw [hnil] at hel
          simp at hel
          rcases hnum with rfl | rfl <;> omega
        simp only [List.all_cons, hsc, Option.isNone_some, Bool.false_and]
        constructor
        · intro h
          exact absurd (List.append_eq_nil.mp h).1 hpos
        · intro h
          cases h

/-- When nothing was generated, the default block is a single entry with a
score in range. -/
theorem sourcesOrDefault_empty_spec (now : ℚ) (g : List Value) (s : RState)
    (h : g.isEmpty = true) :
    (((sourcesOrDefault now g) s).1).length = 1 ∧
    ∀ v ∈ ((sourcesOrDefault now g) s).1, ∃ q,
      getNum (v.asDict.getD []) "score" = some q ∧ 1 / 10 ≤ q ∧ q ≤ 1 := by
  unfold sourcesOrDefault
  rw [if_pos h]
  refine ⟨rfl, ?_⟩
  intro v hv
  simp only [randm_bind_def, randm_pure_def, List.mem_singleton] at hv
  subst hv
  refine ⟨_, rfl, ?_, ?_⟩
  · exact (round2_uniform01_bounds _).1
  · exact (round2_uniform01_bounds _).2

/-- When something was generated, the default is skipped. -/
theorem sourcesOrDefault_nonempty (now : ℚ) (g : List Value) (s : RState)
    (h : g.isEmpty = false) :
    ((sourcesOrDefault now g) s).1 = g := by
  unfold sourcesOrDefault
  rw [if_neg (by simp [h])]
  rfl

/-- The combined behaviour of the generation loop followed by the
empty-default step, exactly as `_format_sentiment_response` composes them. -/
theorem gen_then_default_spec (now : ℚ) (req : List String) (s2 : RState) :
    ((sourcesOrDefault now ((genSources now req) s2).1)
        ((genSources now req) s2).2).1 ≠ [] ∧
    (∀ v ∈ ((sourcesOrDefault now ((genSources now req) s2).1)
        ((genSources now req) s2).2).1, ∃ q,
      getNum (v.asDict.getD []) "score" = some q ∧ 1 / 10 ≤ q ∧ q ≤ 1) ∧
    (if req.all (fun t => (sourceCategoryNames t).isNone) = true
     then (((sourcesOrDefault now ((genSources now req) s2).1)
        ((genSources now req) s2).2).1).length = 1
     else ∃ blocks : List (List Value),
        ((sourcesOrDefault now ((genSources now req) s2).1)
          ((genSources now req) s2).2).1 = blocks.flatten ∧
        List.Forall₂ (fun t b =>
          match sourceCategoryNames t with
          | some _ => b.length = 1 ∨ b.length = 2
          | none => b = []) req blocks) := by
  cases hemp : (((genSources now req) s2).1).isEmpty with
  | true =>
      obtain ⟨hlen, hsc⟩ := sourcesOrDefault_empty_spec now _ _ hemp
      have hall : req.all (fun t => (sourceCategoryNames t).isNone) = true :=
        (genSources_empty_iff now req s2).mp (List.isEmpty_iff.mp hemp)
      refine ⟨?_, hsc, ?_⟩
      · intro hnil
        rw [hnil] at hlen
        simp at hlen
      · rw [if_pos hall]
        exact hlen
  | false =>
      rw [sourcesOrDefault_nonempty now _ _ hemp]
      have hne : ((genSources now req) s2).1 ≠ [] := by
        intro hnil
        rw [hnil] at hemp
        simp at hemp
      have hallf : ¬(req.all (fun t => (sourceCategoryNames t).isNone) = true) := by
        intro h
        exact hne ((genSources_empty_iff now req s2).mpr h)
      refine ⟨hne, genSources_scores now req s2, ?_⟩
      rw [if_neg hallf]
      exact genSources_blocks now req s2

/-- The `data.sources` list of `_format_sentiment_response`. -/
theorem formatSentiment_sources_spec (now : ℚ) (data : Fields) (ticker : String)
    (addl : AdditionalParams) (s : RState) :
    ∃ srcs : List Value,
      getListAt ((formatSentimentResponse now data ticker addl s).1)
        ["company", "data", "sources"] = some srcs ∧
      srcs ≠ [] ∧
      (∀ v ∈ srcs, ∃ q, getNum (v.asDict.getD []) "score" = some q ∧
        1 / 10 ≤ q ∧ q ≤ 1) ∧
      (if (addl.sources.getD ["news"]).all (fun t => (sourceCategoryNames t).isNone) = true
       then srcs.length = 1
       else ∃ blocks : List (List Value), srcs = blocks.flatten ∧
         List.Forall₂ (fun t b =>
           match sourceCategoryNames t with
           | some _ => b.length = 1 ∨ b.length = 2
           | none => b = []) (addl.sources.getD ["news"]) blocks) := by
  exact ⟨_, rfl, gen_then_default_spec now (addl.sources.getD ["news"]) _⟩

/-- **C10**: every SENTIMENT response carries a non-empty `data.sources`
list: each requested source type among social/news/analyst contributes one
or two entries, unrecognized types are skipped, an all-unrecognized (or
empty) request yields exactly one default entry, and every entry's score
lies in `[0.1, 1]`. -/
theorem c10_sentiment_sources
    (cd : List (String × Fields)) (ttl t0 now : ℚ) (s : RState) (ticker : String)
    (addl : AdditionalParams) :
    ∃ srcs : List Value,
      getListAt (((getIntelligence (mkProvider cd ttl t0) now ticker .sentiment addl none
          s).1).1).data ["company", "data", "sources"] = some srcs ∧
      srcs ≠ [] ∧
      (∀ v ∈ srcs, ∃ q, getNum (v.asDict.getD []) "score" = some q ∧
        1 / 10 ≤ q ∧ q ≤ 1) ∧
      (if (addl.sources.getD ["news"]).all (fun t => (sourceCategoryNames t).isNone) = true
       then srcs.length = 1
       else ∃ blocks : List (List Value), srcs = blocks.flatten ∧
         List.Forall₂ (fun t b =>
           match sourceCategoryNames t with
           | some _ => b.length = 1 ∨ b.length = 2
           | none => b = []) (addl.sources.getD ["news"]) blocks) := by
  rw [getIntelligence_miss_eq (mkProvider cd ttl t0) now ticker .sentiment addl none s rfl,
    getIntelligenceMiss_none_eq]
  dsimp only [freshResponse]
  exact formatSentiment_sources_spec now _ ticker addl _

end CryptoIntel
